import Mathlib

/-!
Size classes of TCMalloc (`tcmalloc/size_classes.cc`).

The translation unit defines one constant array, `SizeMap::kSizeClasses`, and picks its
rows by conditional compilation on

* `defined(__cpp_aligned_new) && __STDCPP_DEFAULT_NEW_ALIGNMENT__ <= 8` (the outer `#if`),
* `TCMALLOC_PAGE_SHIFT` (13, 15, 18 or 12; anything else is a preprocessor error),
* `TCMALLOC_4M_MAX_SIZE` (only consulted when the page shift is 18).

The embedding keeps every row as written and turns the preprocessor conditionals into
ordinary conditionals over three explicit build parameters.
-/

namespace tcmalloc

set_option maxRecDepth 100000

/-- Modelled from the spec: the record type `SizeClassInfo` is declared in
`tcmalloc/common.h`, which is not part of the sources at hand. The three fields are the
three columns of every row, `<bytes>, <pages>, <batch size>`, under the names the
specification gives them. All three are `size_t` in C++; every constant of the file is far
below `2^64`, so natural numbers represent them exactly. -/
structure SizeClassInfo where
  size : Nat
  pagesPerSpan : Nat
  batchSize : Nat
deriving DecidableEq

/-- Rows of `SizeMap::kSizeClasses` for `TCMALLOC_PAGE_SHIFT == 13`, aligned-new branch
(size_classes.cc, array starting at line 36). Columns: bytes, pages, batch size;
the trailing comment of a row is the source's `<fixed>` annotation. -/
def kSizeClasses_aligned_13 : List SizeClassInfo :=
  [
    SizeClassInfo.mk 0 0 0,  -- +Inf%
    SizeClassInfo.mk 8 1 32,  -- 0.59%
    SizeClassInfo.mk 16 1 32,  -- 0.59%
    SizeClassInfo.mk 24 1 32,  -- 0.68%
    SizeClassInfo.mk 32 1 32,  -- 0.59%
    SizeClassInfo.mk 40 1 32,  -- 0.98%
    SizeClassInfo.mk 48 1 32,  -- 0.98%
    SizeClassInfo.mk 56 1 32,  -- 0.78%
    SizeClassInfo.mk 64 1 32,  -- 0.59%
    SizeClassInfo.mk 72 1 32,  -- 1.28%
    SizeClassInfo.mk 80 1 32,  -- 0.98%
    SizeClassInfo.mk 88 1 32,  -- 0.68%
    SizeClassInfo.mk 96 1 32,  -- 0.98%
    SizeClassInfo.mk 104 1 32,  -- 1.58%
    SizeClassInfo.mk 112 1 32,  -- 0.78%
    SizeClassInfo.mk 120 1 32,  -- 0.98%
    SizeClassInfo.mk 128 1 32,  -- 0.59%
    SizeClassInfo.mk 136 1 32,  -- 0.98%
    SizeClassInfo.mk 144 1 32,  -- 2.18%
    SizeClassInfo.mk 160 1 32,  -- 0.98%
    SizeClassInfo.mk 176 1 32,  -- 1.78%
    SizeClassInfo.mk 192 1 32,  -- 2.18%
    SizeClassInfo.mk 208 1 32,  -- 1.58%
    SizeClassInfo.mk 224 1 32,  -- 2.18%
    SizeClassInfo.mk 240 1 32,  -- 0.98%
    SizeClassInfo.mk 256 1 32,  -- 0.59%
    SizeClassInfo.mk 272 1 32,  -- 0.98%
    SizeClassInfo.mk 288 1 32,  -- 2.18%
    SizeClassInfo.mk 312 1 32,  -- 1.58%
    SizeClassInfo.mk 336 1 32,  -- 2.18%
    SizeClassInfo.mk 352 1 32,  -- 1.78%
    SizeClassInfo.mk 384 1 32,  -- 2.18%
    SizeClassInfo.mk 408 1 32,  -- 0.98%
    SizeClassInfo.mk 424 1 32,  -- 2.28%
    SizeClassInfo.mk 448 1 32,  -- 2.18%
    SizeClassInfo.mk 480 1 32,  -- 0.98%
    SizeClassInfo.mk 512 1 32,  -- 0.59%
    SizeClassInfo.mk 576 1 32,  -- 2.18%
    SizeClassInfo.mk 640 1 32,  -- 7.29%
    SizeClassInfo.mk 704 1 32,  -- 6.40%
    SizeClassInfo.mk 768 1 32,  -- 7.29%
    SizeClassInfo.mk 896 1 32,  -- 2.18%
    SizeClassInfo.mk 1024 1 32,  -- 0.59%
    SizeClassInfo.mk 1152 2 32,  -- 1.88%
    SizeClassInfo.mk 1280 2 32,  -- 6.98%
    SizeClassInfo.mk 1408 2 32,  -- 6.10%
    SizeClassInfo.mk 1536 2 32,  -- 6.98%
    SizeClassInfo.mk 1792 2 32,  -- 1.88%
    SizeClassInfo.mk 2048 2 32,  -- 0.29%
    SizeClassInfo.mk 2304 2 28,  -- 1.88%
    SizeClassInfo.mk 2688 2 24,  -- 1.88%
    SizeClassInfo.mk 3200 2 20,  -- 2.70%
    SizeClassInfo.mk 3456 3 18,  -- 1.79%
    SizeClassInfo.mk 3584 4 18,  -- 1.74%
    SizeClassInfo.mk 4096 2 16,  -- 0.29%
    SizeClassInfo.mk 4736 3 13,  -- 3.99%
    SizeClassInfo.mk 5376 2 12,  -- 1.88%
    SizeClassInfo.mk 6144 3 10,  -- 0.20%
    SizeClassInfo.mk 6528 4 10,  -- 0.54%
    SizeClassInfo.mk 7168 7 9,  -- 0.08%
    SizeClassInfo.mk 8192 2 8,  -- 0.29%
    SizeClassInfo.mk 9472 5 6,  -- 8.23%
    SizeClassInfo.mk 10240 4 6,  -- 6.82%
    SizeClassInfo.mk 12288 3 5,  -- 0.20%
    SizeClassInfo.mk 14336 7 4,  -- 0.08%
    SizeClassInfo.mk 16384 2 4,  -- 0.29%
    SizeClassInfo.mk 20480 5 3,  -- 0.12%
    SizeClassInfo.mk 24576 3 2,  -- 0.20%
    SizeClassInfo.mk 28672 7 2,  -- 0.08%
    SizeClassInfo.mk 32768 4 2,  -- 0.15%
    SizeClassInfo.mk 40960 5 2,  -- 0.12%
    SizeClassInfo.mk 49152 6 2,  -- 0.10%
    SizeClassInfo.mk 57344 7 2,  -- 0.08%
    SizeClassInfo.mk 65536 8 2,  -- 0.07%
    SizeClassInfo.mk 73728 9 2,  -- 0.07%
    SizeClassInfo.mk 81920 10 2,  -- 0.06%
    SizeClassInfo.mk 98304 12 2,  -- 0.05%
    SizeClassInfo.mk 106496 13 2,  -- 0.05%
    SizeClassInfo.mk 114688 14 2,  -- 0.04%
    SizeClassInfo.mk 131072 16 2,  -- 0.04%
    SizeClassInfo.mk 147456 18 2,  -- 0.03%
    SizeClassInfo.mk 163840 20 2,  -- 0.03%
    SizeClassInfo.mk 180224 22 2,  -- 0.03%
    SizeClassInfo.mk 204800 25 2,  -- 0.02%
    SizeClassInfo.mk 229376 28 2,  -- 0.02%
    SizeClassInfo.mk 262144 32 2  -- 0.02%
  ]

/-- Rows of `SizeMap::kSizeClasses` for `TCMALLOC_PAGE_SHIFT == 15`, aligned-new branch
(size_classes.cc, array starting at line 127). Columns: bytes, pages, batch size;
the trailing comment of a row is the source's `<fixed>` annotation. -/
def kSizeClasses_aligned_15 : List SizeClassInfo :=
  [
    SizeClassInfo.mk 0 0 0,  -- +Inf%
    SizeClassInfo.mk 8 1 32,  -- 0.15%
    SizeClassInfo.mk 16 1 32,  -- 0.15%
    SizeClassInfo.mk 24 1 32,  -- 0.17%
    SizeClassInfo.mk 32 1 32,  -- 0.15%
    SizeClassInfo.mk 40 1 32,  -- 0.17%
    SizeClassInfo.mk 48 1 32,  -- 0.24%
    SizeClassInfo.mk 56 1 32,  -- 0.17%
    SizeClassInfo.mk 64 1 32,  -- 0.15%
    SizeClassInfo.mk 72 1 32,  -- 0.17%
    SizeClassInfo.mk 80 1 32,  -- 0.29%
    SizeClassInfo.mk 88 1 32,  -- 0.24%
    SizeClassInfo.mk 96 1 32,  -- 0.24%
    SizeClassInfo.mk 104 1 32,  -- 0.17%
    SizeClassInfo.mk 112 1 32,  -- 0.34%
    SizeClassInfo.mk 120 1 32,  -- 0.17%
    SizeClassInfo.mk 128 1 32,  -- 0.15%
    SizeClassInfo.mk 144 1 32,  -- 0.39%
    SizeClassInfo.mk 160 1 32,  -- 0.54%
    SizeClassInfo.mk 176 1 32,  -- 0.24%
    SizeClassInfo.mk 192 1 32,  -- 0.54%
    SizeClassInfo.mk 208 1 32,  -- 0.49%
    SizeClassInfo.mk 224 1 32,  -- 0.34%
    SizeClassInfo.mk 240 1 32,  -- 0.54%
    SizeClassInfo.mk 256 1 32,  -- 0.15%
    SizeClassInfo.mk 280 1 32,  -- 0.17%
    SizeClassInfo.mk 304 1 32,  -- 0.89%
    SizeClassInfo.mk 336 1 32,  -- 0.69%
    SizeClassInfo.mk 368 1 32,  -- 0.20%
    SizeClassInfo.mk 416 1 32,  -- 1.13%
    SizeClassInfo.mk 464 1 32,  -- 1.03%
    SizeClassInfo.mk 512 1 32,  -- 0.15%
    SizeClassInfo.mk 576 1 32,  -- 1.74%
    SizeClassInfo.mk 640 1 32,  -- 0.54%
    SizeClassInfo.mk 704 1 32,  -- 1.33%
    SizeClassInfo.mk 832 1 32,  -- 1.13%
    SizeClassInfo.mk 896 1 32,  -- 1.74%
    SizeClassInfo.mk 1024 1 32,  -- 0.15%
    SizeClassInfo.mk 1152 1 32,  -- 1.74%
    SizeClassInfo.mk 1280 1 32,  -- 2.55%
    SizeClassInfo.mk 1408 1 32,  -- 1.33%
    SizeClassInfo.mk 1536 1 32,  -- 1.74%
    SizeClassInfo.mk 1792 1 32,  -- 1.74%
    SizeClassInfo.mk 2048 1 32,  -- 0.15%
    SizeClassInfo.mk 2176 1 30,  -- 0.54%
    SizeClassInfo.mk 2432 1 26,  -- 3.80%
    SizeClassInfo.mk 2688 1 24,  -- 1.74%
    SizeClassInfo.mk 2944 1 22,  -- 1.33%
    SizeClassInfo.mk 3200 1 20,  -- 2.55%
    SizeClassInfo.mk 3584 1 18,  -- 1.74%
    SizeClassInfo.mk 4096 1 16,  -- 0.15%
    SizeClassInfo.mk 4608 1 14,  -- 1.74%
    SizeClassInfo.mk 5376 1 12,  -- 1.74%
    SizeClassInfo.mk 6528 1 10,  -- 0.54%
    SizeClassInfo.mk 8192 1 8,  -- 0.15%
    SizeClassInfo.mk 9344 2 7,  -- 0.27%
    SizeClassInfo.mk 10880 1 6,  -- 0.54%
    SizeClassInfo.mk 13056 2 5,  -- 0.47%
    SizeClassInfo.mk 13952 3 4,  -- 0.70%
    SizeClassInfo.mk 16384 1 4,  -- 0.15%
    SizeClassInfo.mk 19072 3 3,  -- 3.14%
    SizeClassInfo.mk 21760 2 3,  -- 0.47%
    SizeClassInfo.mk 24576 3 2,  -- 0.05%
    SizeClassInfo.mk 28032 6 2,  -- 0.22%
    SizeClassInfo.mk 32768 1 2,  -- 0.15%
    SizeClassInfo.mk 38144 5 2,  -- 7.41%
    SizeClassInfo.mk 40960 4 2,  -- 6.71%
    SizeClassInfo.mk 49152 3 2,  -- 0.05%
    SizeClassInfo.mk 57344 7 2,  -- 0.02%
    SizeClassInfo.mk 65536 2 2,  -- 0.07%
    SizeClassInfo.mk 81920 5 2,  -- 0.03%
    SizeClassInfo.mk 98304 3 2,  -- 0.05%
    SizeClassInfo.mk 114688 7 2,  -- 0.02%
    SizeClassInfo.mk 131072 4 2,  -- 0.04%
    SizeClassInfo.mk 163840 5 2,  -- 0.03%
    SizeClassInfo.mk 196608 6 2,  -- 0.02%
    SizeClassInfo.mk 229376 7 2,  -- 0.02%
    SizeClassInfo.mk 262144 8 2  -- 0.02%
  ]

/-- Rows of `SizeMap::kSizeClasses` for `TCMALLOC_PAGE_SHIFT == 18`, aligned-new branch
(size_classes.cc, array starting at line 214). The argument says whether
`TCMALLOC_4M_MAX_SIZE` is defined: the first conditional block is the one the source
guards with `#ifndef TCMALLOC_4M_MAX_SIZE`, the last one the one it guards with
`TCMALLOC_4M_MAX_SIZE` defined (`#ifdef`). -/
def kSizeClasses_aligned_18 (TCMALLOC_4M_MAX_SIZE : Bool) : List SizeClassInfo :=
  [
    SizeClassInfo.mk 0 0 0,  -- +Inf%
    SizeClassInfo.mk 8 1 32,  -- 0.02%
    SizeClassInfo.mk 16 1 32,  -- 0.02%
    SizeClassInfo.mk 24 1 32,  -- 0.02%
    SizeClassInfo.mk 32 1 32,  -- 0.02%
    SizeClassInfo.mk 40 1 32,  -- 0.03%
    SizeClassInfo.mk 48 1 32,  -- 0.02%
    SizeClassInfo.mk 56 1 32,  -- 0.02%
    SizeClassInfo.mk 64 1 32,  -- 0.02%
    SizeClassInfo.mk 72 1 32,  -- 0.04%
    SizeClassInfo.mk 80 1 32,  -- 0.04%
    SizeClassInfo.mk 88 1 32,  -- 0.05%
    SizeClassInfo.mk 96 1 32,  -- 0.04%
    SizeClassInfo.mk 104 1 32,  -- 0.04%
    SizeClassInfo.mk 112 1 32,  -- 0.04%
    SizeClassInfo.mk 128 1 32,  -- 0.02%
    SizeClassInfo.mk 144 1 32,  -- 0.04%
    SizeClassInfo.mk 160 1 32,  -- 0.04%
    SizeClassInfo.mk 176 1 32,  -- 0.05%
    SizeClassInfo.mk 192 1 32,  -- 0.04%
    SizeClassInfo.mk 216 1 32,  -- 0.07%
    SizeClassInfo.mk 232 1 32,  -- 0.10%
    SizeClassInfo.mk 256 1 32,  -- 0.02%
    SizeClassInfo.mk 288 1 32,  -- 0.04%
    SizeClassInfo.mk 304 1 32,  -- 0.05%
    SizeClassInfo.mk 320 1 32,  -- 0.04%
    SizeClassInfo.mk 344 1 32,  -- 0.02%
    SizeClassInfo.mk 384 1 32,  -- 0.12%
    SizeClassInfo.mk 416 1 32,  -- 0.04%
    SizeClassInfo.mk 464 1 32,  -- 0.19%
    SizeClassInfo.mk 512 1 32,  -- 0.02%
    SizeClassInfo.mk 576 1 32,  -- 0.04%
    SizeClassInfo.mk 640 1 32,  -- 0.17%
    SizeClassInfo.mk 704 1 32,  -- 0.12%
    SizeClassInfo.mk 832 1 32,  -- 0.04%
    SizeClassInfo.mk 960 1 32,  -- 0.04%
    SizeClassInfo.mk 1024 1 32,  -- 0.02%
    SizeClassInfo.mk 1152 1 32,  -- 0.26%
    SizeClassInfo.mk 1280 1 32,  -- 0.41%
    SizeClassInfo.mk 1408 1 32,  -- 0.12%
    SizeClassInfo.mk 1664 1 32,  -- 0.36%
    SizeClassInfo.mk 1792 1 32,  -- 0.21%
    SizeClassInfo.mk 1920 1 32,  -- 0.41%
    SizeClassInfo.mk 2048 1 32,  -- 0.02%
    SizeClassInfo.mk 2176 1 30,  -- 0.41%
    SizeClassInfo.mk 2304 1 28,  -- 0.71%
    SizeClassInfo.mk 2432 1 26,  -- 0.76%
    SizeClassInfo.mk 2688 1 24,  -- 0.56%
    SizeClassInfo.mk 2944 1 22,  -- 0.07%
    SizeClassInfo.mk 3328 1 19,  -- 1.00%
    SizeClassInfo.mk 3584 1 18,  -- 0.21%
    SizeClassInfo.mk 4096 1 16,  -- 0.02%
    SizeClassInfo.mk 4736 1 13,  -- 0.66%
    SizeClassInfo.mk 5120 1 12,  -- 0.41%
    SizeClassInfo.mk 5504 1 11,  -- 1.35%
    SizeClassInfo.mk 5760 1 11,  -- 1.15%
    SizeClassInfo.mk 6144 1 10,  -- 1.61%
    SizeClassInfo.mk 6528 1 10,  -- 0.41%
    SizeClassInfo.mk 7168 1 9,  -- 1.61%
    SizeClassInfo.mk 8192 1 8  -- 0.02%
  ] ++
  (if TCMALLOC_4M_MAX_SIZE then [] else [
    SizeClassInfo.mk 8704 1 7,  -- 0.41%
    SizeClassInfo.mk 9600 1 6,  -- 1.15%
    SizeClassInfo.mk 10880 1 6,  -- 0.41%
    SizeClassInfo.mk 11904 1 5  -- 0.12%
  ]) ++
  [
    SizeClassInfo.mk 13056 1 5,  -- 0.41%
    SizeClassInfo.mk 14464 1 4,  -- 0.71%
    SizeClassInfo.mk 16384 1 4,  -- 0.02%
    SizeClassInfo.mk 18688 1 3,  -- 0.21%
    SizeClassInfo.mk 21760 1 3,  -- 0.41%
    SizeClassInfo.mk 23808 1 2,  -- 0.12%
    SizeClassInfo.mk 26112 1 2,  -- 0.41%
    SizeClassInfo.mk 29056 1 2,  -- 0.26%
    SizeClassInfo.mk 32768 1 2,  -- 0.02%
    SizeClassInfo.mk 37376 1 2,  -- 0.21%
    SizeClassInfo.mk 43648 1 2,  -- 0.12%
    SizeClassInfo.mk 45568 2 2,  -- 4.61%
    SizeClassInfo.mk 52352 1 2,  -- 0.17%
    SizeClassInfo.mk 56064 2 2,  -- 3.92%
    SizeClassInfo.mk 65536 1 2,  -- 0.02%
    SizeClassInfo.mk 74880 2 2,  -- 0.03%
    SizeClassInfo.mk 87296 1 2,  -- 0.12%
    SizeClassInfo.mk 104832 2 2,  -- 0.03%
    SizeClassInfo.mk 112256 3 2,  -- 0.09%
    SizeClassInfo.mk 131072 1 2,  -- 0.02%
    SizeClassInfo.mk 149760 3 2,  -- 5.03%
    SizeClassInfo.mk 174720 2 2,  -- 0.03%
    SizeClassInfo.mk 196608 3 2,  -- 0.01%
    SizeClassInfo.mk 209664 4 2,  -- 0.03%
    SizeClassInfo.mk 262144 1 2  -- 0.02%
  ] ++
  (if TCMALLOC_4M_MAX_SIZE then [
    SizeClassInfo.mk (512 <<< 10) 2 2,
    SizeClassInfo.mk (1 <<< 20) 4 2,
    SizeClassInfo.mk (2 <<< 20) 8 2,
    SizeClassInfo.mk (4 <<< 20) 16 2
  ] else [])

/-- Rows of `SizeMap::kSizeClasses` for `TCMALLOC_PAGE_SHIFT == 12`, aligned-new branch
(size_classes.cc, array starting at line 316). Columns: bytes, pages, batch size;
the trailing comment of a row is the source's `<fixed>` annotation. -/
def kSizeClasses_aligned_12 : List SizeClassInfo :=
  [
    SizeClassInfo.mk 0 0 0,  -- +Inf%
    SizeClassInfo.mk 8 1 32,  -- 1.17%
    SizeClassInfo.mk 16 1 32,  -- 1.17%
    SizeClassInfo.mk 24 1 32,  -- 1.57%
    SizeClassInfo.mk 32 1 32,  -- 1.17%
    SizeClassInfo.mk 40 1 32,  -- 1.57%
    SizeClassInfo.mk 48 1 32,  -- 1.57%
    SizeClassInfo.mk 56 1 32,  -- 1.37%
    SizeClassInfo.mk 64 1 32,  -- 1.17%
    SizeClassInfo.mk 72 1 32,  -- 2.78%
    SizeClassInfo.mk 80 1 32,  -- 1.57%
    SizeClassInfo.mk 96 1 32,  -- 2.78%
    SizeClassInfo.mk 104 1 32,  -- 2.17%
    SizeClassInfo.mk 112 1 32,  -- 2.78%
    SizeClassInfo.mk 128 1 32,  -- 1.17%
    SizeClassInfo.mk 144 1 32,  -- 2.78%
    SizeClassInfo.mk 160 1 32,  -- 3.60%
    SizeClassInfo.mk 176 1 32,  -- 2.37%
    SizeClassInfo.mk 192 1 32,  -- 2.78%
    SizeClassInfo.mk 208 1 32,  -- 4.86%
    SizeClassInfo.mk 240 1 32,  -- 1.57%
    SizeClassInfo.mk 272 1 32,  -- 1.57%
    SizeClassInfo.mk 288 1 32,  -- 2.78%
    SizeClassInfo.mk 312 1 32,  -- 2.17%
    SizeClassInfo.mk 336 1 32,  -- 2.78%
    SizeClassInfo.mk 408 1 32,  -- 1.57%
    SizeClassInfo.mk 448 1 32,  -- 2.78%
    SizeClassInfo.mk 512 1 32,  -- 1.17%
    SizeClassInfo.mk 576 2 32,  -- 2.18%
    SizeClassInfo.mk 640 2 32,  -- 7.29%
    SizeClassInfo.mk 704 2 32,  -- 6.40%
    SizeClassInfo.mk 896 2 32,  -- 2.18%
    SizeClassInfo.mk 1024 2 32,  -- 0.59%
    SizeClassInfo.mk 1152 3 32,  -- 7.08%
    SizeClassInfo.mk 1280 3 32,  -- 7.08%
    SizeClassInfo.mk 1536 3 32,  -- 0.39%
    SizeClassInfo.mk 1792 4 32,  -- 1.88%
    SizeClassInfo.mk 2048 4 32,  -- 0.29%
    SizeClassInfo.mk 2304 4 28,  -- 1.88%
    SizeClassInfo.mk 2688 4 24,  -- 1.88%
    SizeClassInfo.mk 3200 4 20,  -- 2.70%
    SizeClassInfo.mk 4096 4 16,  -- 0.29%
    SizeClassInfo.mk 4736 5 13,  -- 8.36%
    SizeClassInfo.mk 6144 3 10,  -- 0.39%
    SizeClassInfo.mk 7168 7 9,  -- 0.17%
    SizeClassInfo.mk 8192 4 8  -- 0.29%
  ]

/-- Rows of `SizeMap::kSizeClasses` for `TCMALLOC_PAGE_SHIFT == 13`, default-alignment branch
(size_classes.cc, array starting at line 371). Columns: bytes, pages, batch size;
the trailing comment of a row is the source's `<fixed>` annotation. -/
def kSizeClasses_default_13 : List SizeClassInfo :=
  [
    SizeClassInfo.mk 0 0 0,  -- +Inf%
    SizeClassInfo.mk 8 1 32,  -- 0.59%
    SizeClassInfo.mk 16 1 32,  -- 0.59%
    SizeClassInfo.mk 32 1 32,  -- 0.59%
    SizeClassInfo.mk 48 1 32,  -- 0.98%
    SizeClassInfo.mk 64 1 32,  -- 0.59%
    SizeClassInfo.mk 80 1 32,  -- 0.98%
    SizeClassInfo.mk 96 1 32,  -- 0.98%
    SizeClassInfo.mk 112 1 32,  -- 0.78%
    SizeClassInfo.mk 128 1 32,  -- 0.59%
    SizeClassInfo.mk 144 1 32,  -- 2.18%
    SizeClassInfo.mk 160 1 32,  -- 0.98%
    SizeClassInfo.mk 176 1 32,  -- 1.78%
    SizeClassInfo.mk 192 1 32,  -- 2.18%
    SizeClassInfo.mk 208 1 32,  -- 1.58%
    SizeClassInfo.mk 224 1 32,  -- 2.18%
    SizeClassInfo.mk 240 1 32,  -- 0.98%
    SizeClassInfo.mk 256 1 32,  -- 0.59%
    SizeClassInfo.mk 272 1 32,  -- 0.98%
    SizeClassInfo.mk 288 1 32,  -- 2.18%
    SizeClassInfo.mk 304 1 32,  -- 4.25%
    SizeClassInfo.mk 320 1 32,  -- 3.00%
    SizeClassInfo.mk 336 1 32,  -- 2.18%
    SizeClassInfo.mk 352 1 32,  -- 1.78%
    SizeClassInfo.mk 368 1 32,  -- 1.78%
    SizeClassInfo.mk 384 1 32,  -- 2.18%
    SizeClassInfo.mk 400 1 32,  -- 3.00%
    SizeClassInfo.mk 416 1 32,  -- 4.25%
    SizeClassInfo.mk 448 1 32,  -- 2.18%
    SizeClassInfo.mk 480 1 32,  -- 0.98%
    SizeClassInfo.mk 512 1 32,  -- 0.59%
    SizeClassInfo.mk 576 1 32,  -- 2.18%
    SizeClassInfo.mk 640 1 32,  -- 7.29%
    SizeClassInfo.mk 704 1 32,  -- 6.40%
    SizeClassInfo.mk 768 1 32,  -- 7.29%
    SizeClassInfo.mk 896 1 32,  -- 2.18%
    SizeClassInfo.mk 1024 1 32,  -- 0.59%
    SizeClassInfo.mk 1152 2 32,  -- 1.88%
    SizeClassInfo.mk 1280 2 32,  -- 6.98%
    SizeClassInfo.mk 1408 2 32,  -- 6.10%
    SizeClassInfo.mk 1536 2 32,  -- 6.98%
    SizeClassInfo.mk 1792 2 32,  -- 1.88%
    SizeClassInfo.mk 2048 2 32,  -- 0.29%
    SizeClassInfo.mk 2304 2 28,  -- 1.88%
    SizeClassInfo.mk 2688 2 24,  -- 1.88%
    SizeClassInfo.mk 2816 3 23,  -- 9.30%
    SizeClassInfo.mk 3200 2 20,  -- 2.70%
    SizeClassInfo.mk 3456 3 18,  -- 1.79%
    SizeClassInfo.mk 3584 4 18,  -- 1.74%
    SizeClassInfo.mk 4096 2 16,  -- 0.29%
    SizeClassInfo.mk 4736 3 13,  -- 3.99%
    SizeClassInfo.mk 5376 2 12,  -- 1.88%
    SizeClassInfo.mk 6144 3 10,  -- 0.20%
    SizeClassInfo.mk 6528 4 10,  -- 0.54%
    SizeClassInfo.mk 6784 5 9,  -- 0.75%
    SizeClassInfo.mk 7168 7 9,  -- 0.08%
    SizeClassInfo.mk 8192 2 8,  -- 0.29%
    SizeClassInfo.mk 9472 5 6,  -- 8.23%
    SizeClassInfo.mk 10240 4 6,  -- 6.82%
    SizeClassInfo.mk 12288 3 5,  -- 0.20%
    SizeClassInfo.mk 13568 5 4,  -- 0.75%
    SizeClassInfo.mk 14336 7 4,  -- 0.08%
    SizeClassInfo.mk 16384 2 4,  -- 0.29%
    SizeClassInfo.mk 20480 5 3,  -- 0.12%
    SizeClassInfo.mk 24576 3 2,  -- 0.20%
    SizeClassInfo.mk 28672 7 2,  -- 0.08%
    SizeClassInfo.mk 32768 4 2,  -- 0.15%
    SizeClassInfo.mk 40960 5 2,  -- 0.12%
    SizeClassInfo.mk 49152 6 2,  -- 0.10%
    SizeClassInfo.mk 57344 7 2,  -- 0.08%
    SizeClassInfo.mk 65536 8 2,  -- 0.07%
    SizeClassInfo.mk 73728 9 2,  -- 0.07%
    SizeClassInfo.mk 81920 10 2,  -- 0.06%
    SizeClassInfo.mk 90112 11 2,  -- 0.05%
    SizeClassInfo.mk 98304 12 2,  -- 0.05%
    SizeClassInfo.mk 106496 13 2,  -- 0.05%
    SizeClassInfo.mk 114688 14 2,  -- 0.04%
    SizeClassInfo.mk 131072 16 2,  -- 0.04%
    SizeClassInfo.mk 139264 17 2,  -- 0.03%
    SizeClassInfo.mk 155648 19 2,  -- 0.03%
    SizeClassInfo.mk 172032 21 2,  -- 0.03%
    SizeClassInfo.mk 196608 24 2,  -- 0.02%
    SizeClassInfo.mk 204800 25 2,  -- 0.02%
    SizeClassInfo.mk 221184 27 2,  -- 0.02%
    SizeClassInfo.mk 245760 30 2,  -- 0.02%
    SizeClassInfo.mk 262144 32 2  -- 0.02%
  ]

/-- Rows of `SizeMap::kSizeClasses` for `TCMALLOC_PAGE_SHIFT == 15`, default-alignment branch
(size_classes.cc, array starting at line 462). Columns: bytes, pages, batch size;
the trailing comment of a row is the source's `<fixed>` annotation. -/
def kSizeClasses_default_15 : List SizeClassInfo :=
  [
    SizeClassInfo.mk 0 0 0,  -- +Inf%
    SizeClassInfo.mk 8 1 32,  -- 0.15%
    SizeClassInfo.mk 16 1 32,  -- 0.15%
    SizeClassInfo.mk 32 1 32,  -- 0.15%
    SizeClassInfo.mk 48 1 32,  -- 0.24%
    SizeClassInfo.mk 64 1 32,  -- 0.15%
    SizeClassInfo.mk 80 1 32,  -- 0.29%
    SizeClassInfo.mk 96 1 32,  -- 0.24%
    SizeClassInfo.mk 112 1 32,  -- 0.34%
    SizeClassInfo.mk 128 1 32,  -- 0.15%
    SizeClassInfo.mk 144 1 32,  -- 0.39%
    SizeClassInfo.mk 160 1 32,  -- 0.54%
    SizeClassInfo.mk 176 1 32,  -- 0.24%
    SizeClassInfo.mk 192 1 32,  -- 0.54%
    SizeClassInfo.mk 208 1 32,  -- 0.49%
    SizeClassInfo.mk 224 1 32,  -- 0.34%
    SizeClassInfo.mk 240 1 32,  -- 0.54%
    SizeClassInfo.mk 256 1 32,  -- 0.15%
    SizeClassInfo.mk 272 1 32,  -- 0.54%
    SizeClassInfo.mk 288 1 32,  -- 0.84%
    SizeClassInfo.mk 304 1 32,  -- 0.89%
    SizeClassInfo.mk 336 1 32,  -- 0.69%
    SizeClassInfo.mk 368 1 32,  -- 0.20%
    SizeClassInfo.mk 400 1 32,  -- 1.28%
    SizeClassInfo.mk 416 1 32,  -- 1.13%
    SizeClassInfo.mk 464 1 32,  -- 1.03%
    SizeClassInfo.mk 512 1 32,  -- 0.15%
    SizeClassInfo.mk 576 1 32,  -- 1.74%
    SizeClassInfo.mk 640 1 32,  -- 0.54%
    SizeClassInfo.mk 704 1 32,  -- 1.33%
    SizeClassInfo.mk 768 1 32,  -- 1.74%
    SizeClassInfo.mk 832 1 32,  -- 1.13%
    SizeClassInfo.mk 896 1 32,  -- 1.74%
    SizeClassInfo.mk 960 1 32,  -- 0.54%
    SizeClassInfo.mk 1024 1 32,  -- 0.15%
    SizeClassInfo.mk 1152 1 32,  -- 1.74%
    SizeClassInfo.mk 1280 1 32,  -- 2.55%
    SizeClassInfo.mk 1408 1 32,  -- 1.33%
    SizeClassInfo.mk 1536 1 32,  -- 1.74%
    SizeClassInfo.mk 1664 1 32,  -- 3.80%
    SizeClassInfo.mk 1920 1 32,  -- 0.54%
    SizeClassInfo.mk 2048 1 32,  -- 0.15%
    SizeClassInfo.mk 2176 1 30,  -- 0.54%
    SizeClassInfo.mk 2304 1 28,  -- 1.74%
    SizeClassInfo.mk 2432 1 26,  -- 3.80%
    SizeClassInfo.mk 2688 1 24,  -- 1.74%
    SizeClassInfo.mk 2944 1 22,  -- 1.33%
    SizeClassInfo.mk 3200 1 20,  -- 2.55%
    SizeClassInfo.mk 3584 1 18,  -- 1.74%
    SizeClassInfo.mk 4096 1 16,  -- 0.15%
    SizeClassInfo.mk 4608 1 14,  -- 1.74%
    SizeClassInfo.mk 5376 1 12,  -- 1.74%
    SizeClassInfo.mk 6528 1 10,  -- 0.54%
    SizeClassInfo.mk 7168 2 9,  -- 1.66%
    SizeClassInfo.mk 8192 1 8,  -- 0.15%
    SizeClassInfo.mk 9344 2 7,  -- 0.27%
    SizeClassInfo.mk 10880 1 6,  -- 0.54%
    SizeClassInfo.mk 13056 2 5,  -- 0.47%
    SizeClassInfo.mk 13952 3 4,  -- 0.70%
    SizeClassInfo.mk 16384 1 4,  -- 0.15%
    SizeClassInfo.mk 19072 3 3,  -- 3.14%
    SizeClassInfo.mk 21760 2 3,  -- 0.47%
    SizeClassInfo.mk 24576 3 2,  -- 0.05%
    SizeClassInfo.mk 28032 6 2,  -- 0.22%
    SizeClassInfo.mk 32768 1 2,  -- 0.15%
    SizeClassInfo.mk 38144 5 2,  -- 7.41%
    SizeClassInfo.mk 40960 4 2,  -- 6.71%
    SizeClassInfo.mk 49152 3 2,  -- 0.05%
    SizeClassInfo.mk 57344 7 2,  -- 0.02%
    SizeClassInfo.mk 65536 2 2,  -- 0.07%
    SizeClassInfo.mk 81920 5 2,  -- 0.03%
    SizeClassInfo.mk 98304 3 2,  -- 0.05%
    SizeClassInfo.mk 114688 7 2,  -- 0.02%
    SizeClassInfo.mk 131072 4 2,  -- 0.04%
    SizeClassInfo.mk 163840 5 2,  -- 0.03%
    SizeClassInfo.mk 196608 6 2,  -- 0.02%
    SizeClassInfo.mk 229376 7 2,  -- 0.02%
    SizeClassInfo.mk 262144 8 2  -- 0.02%
  ]

/-- Rows of `SizeMap::kSizeClasses` for `TCMALLOC_PAGE_SHIFT == 18`, default-alignment branch
(size_classes.cc, array starting at line 549). The argument says whether
`TCMALLOC_4M_MAX_SIZE` is defined: the first conditional block is the one the source
guards with `#ifndef TCMALLOC_4M_MAX_SIZE`, the last one the one it guards with
`TCMALLOC_4M_MAX_SIZE` defined (`#ifdef`). -/
def kSizeClasses_default_18 (TCMALLOC_4M_MAX_SIZE : Bool) : List SizeClassInfo :=
  [
    SizeClassInfo.mk 0 0 0,  -- +Inf%
    SizeClassInfo.mk 8 1 32,  -- 0.02%
    SizeClassInfo.mk 16 1 32,  -- 0.02%
    SizeClassInfo.mk 32 1 32,  -- 0.02%
    SizeClassInfo.mk 48 1 32,  -- 0.02%
    SizeClassInfo.mk 64 1 32,  -- 0.02%
    SizeClassInfo.mk 80 1 32,  -- 0.04%
    SizeClassInfo.mk 96 1 32,  -- 0.04%
    SizeClassInfo.mk 112 1 32,  -- 0.04%
    SizeClassInfo.mk 128 1 32,  -- 0.02%
    SizeClassInfo.mk 144 1 32,  -- 0.04%
    SizeClassInfo.mk 160 1 32,  -- 0.04%
    SizeClassInfo.mk 176 1 32,  -- 0.05%
    SizeClassInfo.mk 192 1 32,  -- 0.04%
    SizeClassInfo.mk 208 1 32,  -- 0.04%
    SizeClassInfo.mk 224 1 32,  -- 0.04%
    SizeClassInfo.mk 240 1 32,  -- 0.04%
    SizeClassInfo.mk 256 1 32,  -- 0.02%
    SizeClassInfo.mk 288 1 32,  -- 0.04%
    SizeClassInfo.mk 304 1 32,  -- 0.05%
    SizeClassInfo.mk 320 1 32,  -- 0.04%
    SizeClassInfo.mk 352 1 32,  -- 0.12%
    SizeClassInfo.mk 384 1 32,  -- 0.12%
    SizeClassInfo.mk 416 1 32,  -- 0.04%
    SizeClassInfo.mk 464 1 32,  -- 0.19%
    SizeClassInfo.mk 512 1 32,  -- 0.02%
    SizeClassInfo.mk 576 1 32,  -- 0.04%
    SizeClassInfo.mk 640 1 32,  -- 0.17%
    SizeClassInfo.mk 704 1 32,  -- 0.12%
    SizeClassInfo.mk 832 1 32,  -- 0.04%
    SizeClassInfo.mk 960 1 32,  -- 0.04%
    SizeClassInfo.mk 1024 1 32,  -- 0.02%
    SizeClassInfo.mk 1152 1 32,  -- 0.26%
    SizeClassInfo.mk 1280 1 32,  -- 0.41%
    SizeClassInfo.mk 1408 1 32,  -- 0.12%
    SizeClassInfo.mk 1536 1 32,  -- 0.41%
    SizeClassInfo.mk 1664 1 32,  -- 0.36%
    SizeClassInfo.mk 1792 1 32,  -- 0.21%
    SizeClassInfo.mk 1920 1 32,  -- 0.41%
    SizeClassInfo.mk 2048 1 32,  -- 0.02%
    SizeClassInfo.mk 2176 1 30,  -- 0.41%
    SizeClassInfo.mk 2304 1 28,  -- 0.71%
    SizeClassInfo.mk 2432 1 26,  -- 0.76%
    SizeClassInfo.mk 2688 1 24,  -- 0.56%
    SizeClassInfo.mk 2944 1 22,  -- 0.07%
    SizeClassInfo.mk 3328 1 19,  -- 1.00%
    SizeClassInfo.mk 3584 1 18,  -- 0.21%
    SizeClassInfo.mk 4096 1 16,  -- 0.02%
    SizeClassInfo.mk 4736 1 13,  -- 0.66%
    SizeClassInfo.mk 5120 1 12,  -- 0.41%
    SizeClassInfo.mk 5504 1 11,  -- 1.35%
    SizeClassInfo.mk 5760 1 11,  -- 1.15%
    SizeClassInfo.mk 6144 1 10,  -- 1.61%
    SizeClassInfo.mk 6528 1 10,  -- 0.41%
    SizeClassInfo.mk 7168 1 9,  -- 1.61%
    SizeClassInfo.mk 7680 1 8,  -- 0.41%
    SizeClassInfo.mk 8192 1 8  -- 0.02%
  ] ++
  (if TCMALLOC_4M_MAX_SIZE then [] else [
    SizeClassInfo.mk 8704 1 7,  -- 0.41%
    SizeClassInfo.mk 9344 1 7,  -- 0.21%
    SizeClassInfo.mk 9984 1 6,  -- 1.00%
    SizeClassInfo.mk 10880 1 6  -- 0.41%
  ]) ++
  [
    SizeClassInfo.mk 11904 1 5,  -- 0.12%
    SizeClassInfo.mk 13056 1 5,  -- 0.41%
    SizeClassInfo.mk 14464 1 4,  -- 0.71%
    SizeClassInfo.mk 16384 1 4,  -- 0.02%
    SizeClassInfo.mk 17408 1 3,  -- 0.41%
    SizeClassInfo.mk 18688 1 3,  -- 0.21%
    SizeClassInfo.mk 20096 1 3,  -- 0.36%
    SizeClassInfo.mk 21760 1 3,  -- 0.41%
    SizeClassInfo.mk 23808 1 2,  -- 0.12%
    SizeClassInfo.mk 26112 1 2,  -- 0.41%
    SizeClassInfo.mk 29056 1 2,  -- 0.26%
    SizeClassInfo.mk 32768 1 2,  -- 0.02%
    SizeClassInfo.mk 37376 1 2,  -- 0.21%
    SizeClassInfo.mk 43648 1 2,  -- 0.12%
    SizeClassInfo.mk 45568 2 2,  -- 4.61%
    SizeClassInfo.mk 52352 1 2,  -- 0.17%
    SizeClassInfo.mk 56064 2 2,  -- 3.92%
    SizeClassInfo.mk 65536 1 2,  -- 0.02%
    SizeClassInfo.mk 74880 2 2,  -- 0.03%
    SizeClassInfo.mk 87296 1 2,  -- 0.12%
    SizeClassInfo.mk 104832 2 2,  -- 0.03%
    SizeClassInfo.mk 112256 3 2,  -- 0.09%
    SizeClassInfo.mk 131072 1 2,  -- 0.02%
    SizeClassInfo.mk 149760 3 2,  -- 5.03%
    SizeClassInfo.mk 174720 2 2,  -- 0.03%
    SizeClassInfo.mk 196608 3 2,  -- 0.01%
    SizeClassInfo.mk 209664 4 2,  -- 0.03%
    SizeClassInfo.mk 262144 1 2  -- 0.02%
  ] ++
  (if TCMALLOC_4M_MAX_SIZE then [
    SizeClassInfo.mk (512 <<< 10) 2 2,
    SizeClassInfo.mk (1 <<< 20) 4 2,
    SizeClassInfo.mk (2 <<< 20) 8 2,
    SizeClassInfo.mk (4 <<< 20) 16 2
  ] else [])

/-- Rows of `SizeMap::kSizeClasses` for `TCMALLOC_PAGE_SHIFT == 12`, default-alignment branch
(size_classes.cc, array starting at line 651). Columns: bytes, pages, batch size;
the trailing comment of a row is the source's `<fixed>` annotation. -/
def kSizeClasses_default_12 : List SizeClassInfo :=
  [
    SizeClassInfo.mk 0 0 0,  -- +Inf%
    SizeClassInfo.mk 8 1 32,  -- 1.17%
    SizeClassInfo.mk 16 1 32,  -- 1.17%
    SizeClassInfo.mk 32 1 32,  -- 1.17%
    SizeClassInfo.mk 48 1 32,  -- 1.57%
    SizeClassInfo.mk 64 1 32,  -- 1.17%
    SizeClassInfo.mk 80 1 32,  -- 1.57%
    SizeClassInfo.mk 96 1 32,  -- 2.78%
    SizeClassInfo.mk 112 1 32,  -- 2.78%
    SizeClassInfo.mk 128 1 32,  -- 1.17%
    SizeClassInfo.mk 144 1 32,  -- 2.78%
    SizeClassInfo.mk 160 1 32,  -- 3.60%
    SizeClassInfo.mk 176 1 32,  -- 2.37%
    SizeClassInfo.mk 192 1 32,  -- 2.78%
    SizeClassInfo.mk 208 1 32,  -- 4.86%
    SizeClassInfo.mk 224 1 32,  -- 2.78%
    SizeClassInfo.mk 240 1 32,  -- 1.57%
    SizeClassInfo.mk 256 1 32,  -- 1.17%
    SizeClassInfo.mk 272 1 32,  -- 1.57%
    SizeClassInfo.mk 288 1 32,  -- 2.78%
    SizeClassInfo.mk 304 1 32,  -- 4.86%
    SizeClassInfo.mk 336 1 32,  -- 2.78%
    SizeClassInfo.mk 368 1 32,  -- 2.37%
    SizeClassInfo.mk 400 1 32,  -- 3.60%
    SizeClassInfo.mk 448 1 32,  -- 2.78%
    SizeClassInfo.mk 512 1 32,  -- 1.17%
    SizeClassInfo.mk 576 2 32,  -- 2.18%
    SizeClassInfo.mk 640 2 32,  -- 7.29%
    SizeClassInfo.mk 704 2 32,  -- 6.40%
    SizeClassInfo.mk 768 2 32,  -- 7.29%
    SizeClassInfo.mk 896 2 32,  -- 2.18%
    SizeClassInfo.mk 1024 2 32,  -- 0.59%
    SizeClassInfo.mk 1152 3 32,  -- 7.08%
    SizeClassInfo.mk 1280 3 32,  -- 7.08%
    SizeClassInfo.mk 1536 3 32,  -- 0.39%
    SizeClassInfo.mk 1792 4 32,  -- 1.88%
    SizeClassInfo.mk 2048 4 32,  -- 0.29%
    SizeClassInfo.mk 2304 4 28,  -- 1.88%
    SizeClassInfo.mk 2688 4 24,  -- 1.88%
    SizeClassInfo.mk 3200 4 20,  -- 2.70%
    SizeClassInfo.mk 3584 7 18,  -- 0.17%
    SizeClassInfo.mk 4096 4 16,  -- 0.29%
    SizeClassInfo.mk 4736 5 13,  -- 8.36%
    SizeClassInfo.mk 6144 3 10,  -- 0.39%
    SizeClassInfo.mk 7168 7 9,  -- 0.17%
    SizeClassInfo.mk 8192 4 8  -- 0.29%
  ]

/-- The array `SizeMap::kSizeClasses` as the preprocessor selects it.
`alignedNew` stands for the outer condition
`defined(__cpp_aligned_new) && __STDCPP_DEFAULT_NEW_ALIGNMENT__ <= 8`; the order of the
page-shift tests (13, 15, 18, 12) is the order of the `#if`/`#elif` chain, and the final
branch is the `#error` directive, whose message is returned as the error.
`TCMALLOC_PAGE_SHIFT` is a value of the preprocessor's 64-bit arithmetic; the comparisons
below are those of the source for every value below `2^64`. -/
def kSizeClasses (alignedNew : Bool) (TCMALLOC_PAGE_SHIFT : Nat)
    (TCMALLOC_4M_MAX_SIZE : Bool) : Except String (List SizeClassInfo) :=
  if alignedNew then
    if TCMALLOC_PAGE_SHIFT = 13 then .ok kSizeClasses_aligned_13
    else if TCMALLOC_PAGE_SHIFT = 15 then .ok kSizeClasses_aligned_15
    else if TCMALLOC_PAGE_SHIFT = 18 then .ok (kSizeClasses_aligned_18 TCMALLOC_4M_MAX_SIZE)
    else if TCMALLOC_PAGE_SHIFT = 12 then .ok kSizeClasses_aligned_12
    else .error "Unsupported TCMALLOC_PAGE_SHIFT value!"
  else
    if TCMALLOC_PAGE_SHIFT = 13 then .ok kSizeClasses_default_13
    else if TCMALLOC_PAGE_SHIFT = 15 then .ok kSizeClasses_default_15
    else if TCMALLOC_PAGE_SHIFT = 18 then .ok (kSizeClasses_default_18 TCMALLOC_4M_MAX_SIZE)
    else if TCMALLOC_PAGE_SHIFT = 12 then .ok kSizeClasses_default_12
    else .error "Unsupported TCMALLOC_PAGE_SHIFT value!"

/-- The value that the selected branch pins `kMaxSize` to, through its
`static_assert(kMaxSize == ..., "kMaxSize mismatch")`. The constant itself lives in
`tcmalloc/common.h`; the assertions of this file say what it has to be for the file to
compile. Both alignment branches carry the same assertions, in the same order as the
tables. -/
def kMaxSize (alignedNew : Bool) (TCMALLOC_PAGE_SHIFT : Nat)
    (TCMALLOC_4M_MAX_SIZE : Bool) : Except String Nat :=
  if alignedNew then
    if TCMALLOC_PAGE_SHIFT = 13 then .ok 262144
    else if TCMALLOC_PAGE_SHIFT = 15 then .ok 262144
    else if TCMALLOC_PAGE_SHIFT = 18 then
      (if TCMALLOC_4M_MAX_SIZE then .ok (4 <<< 20) else .ok 262144)
    else if TCMALLOC_PAGE_SHIFT = 12 then .ok 8192
    else .error "Unsupported TCMALLOC_PAGE_SHIFT value!"
  else
    if TCMALLOC_PAGE_SHIFT = 13 then .ok 262144
    else if TCMALLOC_PAGE_SHIFT = 15 then .ok 262144
    else if TCMALLOC_PAGE_SHIFT = 18 then
      (if TCMALLOC_4M_MAX_SIZE then .ok (4 <<< 20) else .ok 262144)
    else if TCMALLOC_PAGE_SHIFT = 12 then .ok 8192
    else .error "Unsupported TCMALLOC_PAGE_SHIFT value!"

/-- Modelled from the spec: the page size in bytes, `2^TCMALLOC_PAGE_SHIFT` (the constant
`kPageSize` of `tcmalloc/common.h`, which is not part of the sources at hand). -/
def pageSize (TCMALLOC_PAGE_SHIFT : Nat) : Nat := 2 ^ TCMALLOC_PAGE_SHIFT

/-- Modelled from the spec: `classFor(size)` of the `SizeMap` component, whose code
(`tcmalloc/common.h`, `tcmalloc/common.cc`) is not part of the sources at hand. The
specification's contract: for `0 < size ≤ maxClassSize` it "returns the smallest index `i`
with `table[i].size ≥ size`", and for a larger size it "signals no class". The search
below returns that smallest index, and `none` when no entry is large enough. (For
`size = 0` the search stops at the sentinel entry, index 0; the claims studied here only
use `size > 0`.) -/
def classFor : List SizeClassInfo → Nat → Option Nat
  | [], _ => none
  | e :: rest, size =>
    if size ≤ e.size then some 0 else (classFor rest size).map (· + 1)

/-- Modelled from the spec: `usableSize(classIndex)` "returns `table[classIndex].size`";
an index outside the table is a precondition violation, rendered as `none`. -/
def usableSize (table : List SizeClassInfo) (classIndex : Nat) : Option Nat :=
  table[classIndex]?.map (·.size)

/-- Modelled from the spec: the number of objects a span of class `e` holds,
`floor(pagesPerSpan × pageSize / size)`. Division by the sentinel's size 0 yields 0. -/
def SizeClassInfo.objectsPerSpan (e : SizeClassInfo) (pageSize : Nat) : Nat :=
  e.pagesPerSpan * pageSize / e.size

/-- Modelled from the spec: `objectsPerSpan(classIndex)` "returns
`floor(table[classIndex].pagesPerSpan × pageSize / table[classIndex].size)`"; an index
outside the table is rendered as `none`. -/
def objectsPerSpan (table : List SizeClassInfo) (pageSize : Nat) (classIndex : Nat) :
    Option Nat :=
  table[classIndex]?.map (·.objectsPerSpan pageSize)

/-! ## Enumerating the build configurations -/

/-- The build configurations under which the file compiles: either alignment branch, one of
the four supported page shifts, `TCMALLOC_4M_MAX_SIZE` defined or not. -/
def variants : List (Bool × Nat × Bool) :=
  [true, false].flatMap fun a =>
    [13, 15, 18, 12].flatMap fun s => [true, false].map fun f => (a, s, f)

/-- The selected table, or the empty list when the build fails. -/
def tableOf (alignedNew : Bool) (TCMALLOC_PAGE_SHIFT : Nat) (TCMALLOC_4M_MAX_SIZE : Bool) :
    List SizeClassInfo :=
  match kSizeClasses alignedNew TCMALLOC_PAGE_SHIFT TCMALLOC_4M_MAX_SIZE with
  | .ok t => t
  | .error _ => []

/-- Runs a boolean check on the table of every build configuration of `variants`. -/
def checkVariants (c : Bool → Nat → Bool → List SizeClassInfo → Bool) : Bool :=
  variants.all fun v => c v.1 v.2.1 v.2.2 (tableOf v.1 v.2.1 v.2.2)

/-- Boolean test: each number is strictly below its successor in the list. -/
def strictlyIncreasing : List Nat → Bool
  | a :: b :: rest => decide (a < b) && strictlyIncreasing (b :: rest)
  | _ => true

/-! ## The `<fixed>` column -/

/-- Rows of the array for `TCMALLOC_PAGE_SHIFT == 13`, aligned-new branch
(size_classes.cc, array starting at line 36), each with the `<fixed>` annotation of its
trailing comment, in hundredths of a percent (`some 59` for `0.59%`, `none` for `+Inf%`). -/
def kSizeClasses_aligned_13_fixed : List (SizeClassInfo × Option Nat) :=
  [
    (SizeClassInfo.mk 0 0 0, none),  -- +Inf%
    (SizeClassInfo.mk 8 1 32, some 59),  -- 0.59%
    (SizeClassInfo.mk 16 1 32, some 59),  -- 0.59%
    (SizeClassInfo.mk 24 1 32, some 68),  -- 0.68%
    (SizeClassInfo.mk 32 1 32, some 59),  -- 0.59%
    (SizeClassInfo.mk 40 1 32, some 98),  -- 0.98%
    (SizeClassInfo.mk 48 1 32, some 98),  -- 0.98%
    (SizeClassInfo.mk 56 1 32, some 78),  -- 0.78%
    (SizeClassInfo.mk 64 1 32, some 59),  -- 0.59%
    (SizeClassInfo.mk 72 1 32, some 128),  -- 1.28%
    (SizeClassInfo.mk 80 1 32, some 98),  -- 0.98%
    (SizeClassInfo.mk 88 1 32, some 68),  -- 0.68%
    (SizeClassInfo.mk 96 1 32, some 98),  -- 0.98%
    (SizeClassInfo.mk 104 1 32, some 158),  -- 1.58%
    (SizeClassInfo.mk 112 1 32, some 78),  -- 0.78%
    (SizeClassInfo.mk 120 1 32, some 98),  -- 0.98%
    (SizeClassInfo.mk 128 1 32, some 59),  -- 0.59%
    (SizeClassInfo.mk 136 1 32, some 98),  -- 0.98%
    (SizeClassInfo.mk 144 1 32, some 218),  -- 2.18%
    (SizeClassInfo.mk 160 1 32, some 98),  -- 0.98%
    (SizeClassInfo.mk 176 1 32, some 178),  -- 1.78%
    (SizeClassInfo.mk 192 1 32, some 218),  -- 2.18%
    (SizeClassInfo.mk 208 1 32, some 158),  -- 1.58%
    (SizeClassInfo.mk 224 1 32, some 218),  -- 2.18%
    (SizeClassInfo.mk 240 1 32, some 98),  -- 0.98%
    (SizeClassInfo.mk 256 1 32, some 59),  -- 0.59%
    (SizeClassInfo.mk 272 1 32, some 98),  -- 0.98%
    (SizeClassInfo.mk 288 1 32, some 218),  -- 2.18%
    (SizeClassInfo.mk 312 1 32, some 158),  -- 1.58%
    (SizeClassInfo.mk 336 1 32, some 218),  -- 2.18%
    (SizeClassInfo.mk 352 1 32, some 178),  -- 1.78%
    (SizeClassInfo.mk 384 1 32, some 218),  -- 2.18%
    (SizeClassInfo.mk 408 1 32, some 98),  -- 0.98%
    (SizeClassInfo.mk 424 1 32, some 228),  -- 2.28%
    (SizeClassInfo.mk 448 1 32, some 218),  -- 2.18%
    (SizeClassInfo.mk 480 1 32, some 98),  -- 0.98%
    (SizeClassInfo.mk 512 1 32, some 59),  -- 0.59%
    (SizeClassInfo.mk 576 1 32, some 218),  -- 2.18%
    (SizeClassInfo.mk 640 1 32, some 729),  -- 7.29%
    (SizeClassInfo.mk 704 1 32, some 640),  -- 6.40%
    (SizeClassInfo.mk 768 1 32, some 729),  -- 7.29%
    (SizeClassInfo.mk 896 1 32, some 218),  -- 2.18%
    (SizeClassInfo.mk 1024 1 32, some 59),  -- 0.59%
    (SizeClassInfo.mk 1152 2 32, some 188),  -- 1.88%
    (SizeClassInfo.mk 1280 2 32, some 698),  -- 6.98%
    (SizeClassInfo.mk 1408 2 32, some 610),  -- 6.10%
    (SizeClassInfo.mk 1536 2 32, some 698),  -- 6.98%
    (SizeClassInfo.mk 1792 2 32, some 188),  -- 1.88%
    (SizeClassInfo.mk 2048 2 32, some 29),  -- 0.29%
    (SizeClassInfo.mk 2304 2 28, some 188),  -- 1.88%
    (SizeClassInfo.mk 2688 2 24, some 188),  -- 1.88%
    (SizeClassInfo.mk 3200 2 20, some 270),  -- 2.70%
    (SizeClassInfo.mk 3456 3 18, some 179),  -- 1.79%
    (SizeClassInfo.mk 3584 4 18, some 174),  -- 1.74%
    (SizeClassInfo.mk 4096 2 16, some 29),  -- 0.29%
    (SizeClassInfo.mk 4736 3 13, some 399),  -- 3.99%
    (SizeClassInfo.mk 5376 2 12, some 188),  -- 1.88%
    (SizeClassInfo.mk 6144 3 10, some 20),  -- 0.20%
    (SizeClassInfo.mk 6528 4 10, some 54),  -- 0.54%
    (SizeClassInfo.mk 7168 7 9, some 8),  -- 0.08%
    (SizeClassInfo.mk 8192 2 8, some 29),  -- 0.29%
    (SizeClassInfo.mk 9472 5 6, some 823),  -- 8.23%
    (SizeClassInfo.mk 10240 4 6, some 682),  -- 6.82%
    (SizeClassInfo.mk 12288 3 5, some 20),  -- 0.20%
    (SizeClassInfo.mk 14336 7 4, some 8),  -- 0.08%
    (SizeClassInfo.mk 16384 2 4, some 29),  -- 0.29%
    (SizeClassInfo.mk 20480 5 3, some 12),  -- 0.12%
    (SizeClassInfo.mk 24576 3 2, some 20),  -- 0.20%
    (SizeClassInfo.mk 28672 7 2, some 8),  -- 0.08%
    (SizeClassInfo.mk 32768 4 2, some 15),  -- 0.15%
    (SizeClassInfo.mk 40960 5 2, some 12),  -- 0.12%
    (SizeClassInfo.mk 49152 6 2, some 10),  -- 0.10%
    (SizeClassInfo.mk 57344 7 2, some 8),  -- 0.08%
    (SizeClassInfo.mk 65536 8 2, some 7),  -- 0.07%
    (SizeClassInfo.mk 73728 9 2, some 7),  -- 0.07%
    (SizeClassInfo.mk 81920 10 2, some 6),  -- 0.06%
    (SizeClassInfo.mk 98304 12 2, some 5),  -- 0.05%
    (SizeClassInfo.mk 106496 13 2, some 5),  -- 0.05%
    (SizeClassInfo.mk 114688 14 2, some 4),  -- 0.04%
    (SizeClassInfo.mk 131072 16 2, some 4),  -- 0.04%
    (SizeClassInfo.mk 147456 18 2, some 3),  -- 0.03%
    (SizeClassInfo.mk 163840 20 2, some 3),  -- 0.03%
    (SizeClassInfo.mk 180224 22 2, some 3),  -- 0.03%
    (SizeClassInfo.mk 204800 25 2, some 2),  -- 0.02%
    (SizeClassInfo.mk 229376 28 2, some 2),  -- 0.02%
    (SizeClassInfo.mk 262144 32 2, some 2)  -- 0.02%
  ]

/-- Rows of the array for `TCMALLOC_PAGE_SHIFT == 15`, aligned-new branch
(size_classes.cc, array starting at line 127), each with the `<fixed>` annotation of its
trailing comment, in hundredths of a percent (`some 59` for `0.59%`, `none` for `+Inf%`). -/
def kSizeClasses_aligned_15_fixed : List (SizeClassInfo × Option Nat) :=
  [
    (SizeClassInfo.mk 0 0 0, none),  -- +Inf%
    (SizeClassInfo.mk 8 1 32, some 15),  -- 0.15%
    (SizeClassInfo.mk 16 1 32, some 15),  -- 0.15%
    (SizeClassInfo.mk 24 1 32, some 17),  -- 0.17%
    (SizeClassInfo.mk 32 1 32, some 15),  -- 0.15%
    (SizeClassInfo.mk 40 1 32, some 17),  -- 0.17%
    (SizeClassInfo.mk 48 1 32, some 24),  -- 0.24%
    (SizeClassInfo.mk 56 1 32, some 17),  -- 0.17%
    (SizeClassInfo.mk 64 1 32, some 15),  -- 0.15%
    (SizeClassInfo.mk 72 1 32, some 17),  -- 0.17%
    (SizeClassInfo.mk 80 1 32, some 29),  -- 0.29%
    (SizeClassInfo.mk 88 1 32, some 24),  -- 0.24%
    (SizeClassInfo.mk 96 1 32, some 24),  -- 0.24%
    (SizeClassInfo.mk 104 1 32, some 17),  -- 0.17%
    (SizeClassInfo.mk 112 1 32, some 34),  -- 0.34%
    (SizeClassInfo.mk 120 1 32, some 17),  -- 0.17%
    (SizeClassInfo.mk 128 1 32, some 15),  -- 0.15%
    (SizeClassInfo.mk 144 1 32, some 39),  -- 0.39%
    (SizeClassInfo.mk 160 1 32, some 54),  -- 0.54%
    (SizeClassInfo.mk 176 1 32, some 24),  -- 0.24%
    (SizeClassInfo.mk 192 1 32, some 54),  -- 0.54%
    (SizeClassInfo.mk 208 1 32, some 49),  -- 0.49%
    (SizeClassInfo.mk 224 1 32, some 34),  -- 0.34%
    (SizeClassInfo.mk 240 1 32, some 54),  -- 0.54%
    (SizeClassInfo.mk 256 1 32, some 15),  -- 0.15%
    (SizeClassInfo.mk 280 1 32, some 17),  -- 0.17%
    (SizeClassInfo.mk 304 1 32, some 89),  -- 0.89%
    (SizeClassInfo.mk 336 1 32, some 69),  -- 0.69%
    (SizeClassInfo.mk 368 1 32, some 20),  -- 0.20%
    (SizeClassInfo.mk 416 1 32, some 113),  -- 1.13%
    (SizeClassInfo.mk 464 1 32, some 103),  -- 1.03%
    (SizeClassInfo.mk 512 1 32, some 15),  -- 0.15%
    (SizeClassInfo.mk 576 1 32, some 174),  -- 1.74%
    (SizeClassInfo.mk 640 1 32, some 54),  -- 0.54%
    (SizeClassInfo.mk 704 1 32, some 133),  -- 1.33%
    (SizeClassInfo.mk 832 1 32, some 113),  -- 1.13%
    (SizeClassInfo.mk 896 1 32, some 174),  -- 1.74%
    (SizeClassInfo.mk 1024 1 32, some 15),  -- 0.15%
    (SizeClassInfo.mk 1152 1 32, some 174),  -- 1.74%
    (SizeClassInfo.mk 1280 1 32, some 255),  -- 2.55%
    (SizeClassInfo.mk 1408 1 32, some 133),  -- 1.33%
    (SizeClassInfo.mk 1536 1 32, some 174),  -- 1.74%
    (SizeClassInfo.mk 1792 1 32, some 174),  -- 1.74%
    (SizeClassInfo.mk 2048 1 32, some 15),  -- 0.15%
    (SizeClassInfo.mk 2176 1 30, some 54),  -- 0.54%
    (SizeClassInfo.mk 2432 1 26, some 380),  -- 3.80%
    (SizeClassInfo.mk 2688 1 24, some 174),  -- 1.74%
    (SizeClassInfo.mk 2944 1 22, some 133),  -- 1.33%
    (SizeClassInfo.mk 3200 1 20, some 255),  -- 2.55%
    (SizeClassInfo.mk 3584 1 18, some 174),  -- 1.74%
    (SizeClassInfo.mk 4096 1 16, some 15),  -- 0.15%
    (SizeClassInfo.mk 4608 1 14, some 174),  -- 1.74%
    (SizeClassInfo.mk 5376 1 12, some 174),  -- 1.74%
    (SizeClassInfo.mk 6528 1 10, some 54),  -- 0.54%
    (SizeClassInfo.mk 8192 1 8, some 15),  -- 0.15%
    (SizeClassInfo.mk 9344 2 7, some 27),  -- 0.27%
    (SizeClassInfo.mk 10880 1 6, some 54),  -- 0.54%
    (SizeClassInfo.mk 13056 2 5, some 47),  -- 0.47%
    (SizeClassInfo.mk 13952 3 4, some 70),  -- 0.70%
    (SizeClassInfo.mk 16384 1 4, some 15),  -- 0.15%
    (SizeClassInfo.mk 19072 3 3, some 314),  -- 3.14%
    (SizeClassInfo.mk 21760 2 3, some 47),  -- 0.47%
    (SizeClassInfo.mk 24576 3 2, some 5),  -- 0.05%
    (SizeClassInfo.mk 28032 6 2, some 22),  -- 0.22%
    (SizeClassInfo.mk 32768 1 2, some 15),  -- 0.15%
    (SizeClassInfo.mk 38144 5 2, some 741),  -- 7.41%
    (SizeClassInfo.mk 40960 4 2, some 671),  -- 6.71%
    (SizeClassInfo.mk 49152 3 2, some 5),  -- 0.05%
    (SizeClassInfo.mk 57344 7 2, some 2),  -- 0.02%
    (SizeClassInfo.mk 65536 2 2, some 7),  -- 0.07%
    (SizeClassInfo.mk 81920 5 2, some 3),  -- 0.03%
    (SizeClassInfo.mk 98304 3 2, some 5),  -- 0.05%
    (SizeClassInfo.mk 114688 7 2, some 2),  -- 0.02%
    (SizeClassInfo.mk 131072 4 2, some 4),  -- 0.04%
    (SizeClassInfo.mk 163840 5 2, some 3),  -- 0.03%
    (SizeClassInfo.mk 196608 6 2, some 2),  -- 0.02%
    (SizeClassInfo.mk 229376 7 2, some 2),  -- 0.02%
    (SizeClassInfo.mk 262144 8 2, some 2)  -- 0.02%
  ]

/-- Rows of the array for `TCMALLOC_PAGE_SHIFT == 18`, aligned-new branch
(size_classes.cc, array starting at line 214), each with the `<fixed>` annotation of its
trailing comment, in hundredths of a percent (`some 59` for `0.59%`, `none` for `+Inf%`);
the conditional blocks are those of the table itself. The four rows added under
`TCMALLOC_4M_MAX_SIZE` carry no annotation (`none`). -/
def kSizeClasses_aligned_18_fixed (TCMALLOC_4M_MAX_SIZE : Bool) :
    List (SizeClassInfo × Option Nat) :=
  [
    (SizeClassInfo.mk 0 0 0, none),  -- +Inf%
    (SizeClassInfo.mk 8 1 32, some 2),  -- 0.02%
    (SizeClassInfo.mk 16 1 32, some 2),  -- 0.02%
    (SizeClassInfo.mk 24 1 32, some 2),  -- 0.02%
    (SizeClassInfo.mk 32 1 32, some 2),  -- 0.02%
    (SizeClassInfo.mk 40 1 32, some 3),  -- 0.03%
    (SizeClassInfo.mk 48 1 32, some 2),  -- 0.02%
    (SizeClassInfo.mk 56 1 32, some 2),  -- 0.02%
    (SizeClassInfo.mk 64 1 32, some 2),  -- 0.02%
    (SizeClassInfo.mk 72 1 32, some 4),  -- 0.04%
    (SizeClassInfo.mk 80 1 32, some 4),  -- 0.04%
    (SizeClassInfo.mk 88 1 32, some 5),  -- 0.05%
    (SizeClassInfo.mk 96 1 32, some 4),  -- 0.04%
    (SizeClassInfo.mk 104 1 32, some 4),  -- 0.04%
    (SizeClassInfo.mk 112 1 32, some 4),  -- 0.04%
    (SizeClassInfo.mk 128 1 32, some 2),  -- 0.02%
    (SizeClassInfo.mk 144 1 32, some 4),  -- 0.04%
    (SizeClassInfo.mk 160 1 32, some 4),  -- 0.04%
    (SizeClassInfo.mk 176 1 32, some 5),  -- 0.05%
    (SizeClassInfo.mk 192 1 32, some 4),  -- 0.04%
    (SizeClassInfo.mk 216 1 32, some 7),  -- 0.07%
    (SizeClassInfo.mk 232 1 32, some 10),  -- 0.10%
    (SizeClassInfo.mk 256 1 32, some 2),  -- 0.02%
    (SizeClassInfo.mk 288 1 32, some 4),  -- 0.04%
    (SizeClassInfo.mk 304 1 32, some 5),  -- 0.05%
    (SizeClassInfo.mk 320 1 32, some 4),  -- 0.04%
    (SizeClassInfo.mk 344 1 32, some 2),  -- 0.02%
    (SizeClassInfo.mk 384 1 32, some 12),  -- 0.12%
    (SizeClassInfo.mk 416 1 32, some 4),  -- 0.04%
    (SizeClassInfo.mk 464 1 32, some 19),  -- 0.19%
    (SizeClassInfo.mk 512 1 32, some 2),  -- 0.02%
    (SizeClassInfo.mk 576 1 32, some 4),  -- 0.04%
    (SizeClassInfo.mk 640 1 32, some 17),  -- 0.17%
    (SizeClassInfo.mk 704 1 32, some 12),  -- 0.12%
    (SizeClassInfo.mk 832 1 32, some 4),  -- 0.04%
    (SizeClassInfo.mk 960 1 32, some 4),  -- 0.04%
    (SizeClassInfo.mk 1024 1 32, some 2),  -- 0.02%
    (SizeClassInfo.mk 1152 1 32, some 26),  -- 0.26%
    (SizeClassInfo.mk 1280 1 32, some 41),  -- 0.41%
    (SizeClassInfo.mk 1408 1 32, some 12),  -- 0.12%
    (SizeClassInfo.mk 1664 1 32, some 36),  -- 0.36%
    (SizeClassInfo.mk 1792 1 32, some 21),  -- 0.21%
    (SizeClassInfo.mk 1920 1 32, some 41),  -- 0.41%
    (SizeClassInfo.mk 2048 1 32, some 2),  -- 0.02%
    (SizeClassInfo.mk 2176 1 30, some 41),  -- 0.41%
    (SizeClassInfo.mk 2304 1 28, some 71),  -- 0.71%
    (SizeClassInfo.mk 2432 1 26, some 76),  -- 0.76%
    (SizeClassInfo.mk 2688 1 24, some 56),  -- 0.56%
    (SizeClassInfo.mk 2944 1 22, some 7),  -- 0.07%
    (SizeClassInfo.mk 3328 1 19, some 100),  -- 1.00%
    (SizeClassInfo.mk 3584 1 18, some 21),  -- 0.21%
    (SizeClassInfo.mk 4096 1 16, some 2),  -- 0.02%
    (SizeClassInfo.mk 4736 1 13, some 66),  -- 0.66%
    (SizeClassInfo.mk 5120 1 12, some 41),  -- 0.41%
    (SizeClassInfo.mk 5504 1 11, some 135),  -- 1.35%
    (SizeClassInfo.mk 5760 1 11, some 115),  -- 1.15%
    (SizeClassInfo.mk 6144 1 10, some 161),  -- 1.61%
    (SizeClassInfo.mk 6528 1 10, some 41),  -- 0.41%
    (SizeClassInfo.mk 7168 1 9, some 161),  -- 1.61%
    (SizeClassInfo.mk 8192 1 8, some 2)  -- 0.02%
  ] ++
  (if TCMALLOC_4M_MAX_SIZE then [] else [
    (SizeClassInfo.mk 8704 1 7, some 41),  -- 0.41%
    (SizeClassInfo.mk 9600 1 6, some 115),  -- 1.15%
    (SizeClassInfo.mk 10880 1 6, some 41),  -- 0.41%
    (SizeClassInfo.mk 11904 1 5, some 12)  -- 0.12%
  ]) ++
  [
    (SizeClassInfo.mk 13056 1 5, some 41),  -- 0.41%
    (SizeClassInfo.mk 14464 1 4, some 71),  -- 0.71%
    (SizeClassInfo.mk 16384 1 4, some 2),  -- 0.02%
    (SizeClassInfo.mk 18688 1 3, some 21),  -- 0.21%
    (SizeClassInfo.mk 21760 1 3, some 41),  -- 0.41%
    (SizeClassInfo.mk 23808 1 2, some 12),  -- 0.12%
    (SizeClassInfo.mk 26112 1 2, some 41),  -- 0.41%
    (SizeClassInfo.mk 29056 1 2, some 26),  -- 0.26%
    (SizeClassInfo.mk 32768 1 2, some 2),  -- 0.02%
    (SizeClassInfo.mk 37376 1 2, some 21),  -- 0.21%
    (SizeClassInfo.mk 43648 1 2, some 12),  -- 0.12%
    (SizeClassInfo.mk 45568 2 2, some 461),  -- 4.61%
    (SizeClassInfo.mk 52352 1 2, some 17),  -- 0.17%
    (SizeClassInfo.mk 56064 2 2, some 392),  -- 3.92%
    (SizeClassInfo.mk 65536 1 2, some 2),  -- 0.02%
    (SizeClassInfo.mk 74880 2 2, some 3),  -- 0.03%
    (SizeClassInfo.mk 87296 1 2, some 12),  -- 0.12%
    (SizeClassInfo.mk 104832 2 2, some 3),  -- 0.03%
    (SizeClassInfo.mk 112256 3 2, some 9),  -- 0.09%
    (SizeClassInfo.mk 131072 1 2, some 2),  -- 0.02%
    (SizeClassInfo.mk 149760 3 2, some 503),  -- 5.03%
    (SizeClassInfo.mk 174720 2 2, some 3),  -- 0.03%
    (SizeClassInfo.mk 196608 3 2, some 1),  -- 0.01%
    (SizeClassInfo.mk 209664 4 2, some 3),  -- 0.03%
    (SizeClassInfo.mk 262144 1 2, some 2)  -- 0.02%
  ] ++
  (if TCMALLOC_4M_MAX_SIZE then [
    (SizeClassInfo.mk (512 <<< 10) 2 2, none),
    (SizeClassInfo.mk (1 <<< 20) 4 2, none),
    (SizeClassInfo.mk (2 <<< 20) 8 2, none),
    (SizeClassInfo.mk (4 <<< 20) 16 2, none)
  ] else [])

/-- Rows of the array for `TCMALLOC_PAGE_SHIFT == 12`, aligned-new branch
(size_classes.cc, array starting at line 316), each with the `<fixed>` annotation of its
trailing comment, in hundredths of a percent (`some 59` for `0.59%`, `none` for `+Inf%`). -/
def kSizeClasses_aligned_12_fixed : List (SizeClassInfo × Option Nat) :=
  [
    (SizeClassInfo.mk 0 0 0, none),  -- +Inf%
    (SizeClassInfo.mk 8 1 32, some 117),  -- 1.17%
    (SizeClassInfo.mk 16 1 32, some 117),  -- 1.17%
    (SizeClassInfo.mk 24 1 32, some 157),  -- 1.57%
    (SizeClassInfo.mk 32 1 32, some 117),  -- 1.17%
    (SizeClassInfo.mk 40 1 32, some 157),  -- 1.57%
    (SizeClassInfo.mk 48 1 32, some 157),  -- 1.57%
    (SizeClassInfo.mk 56 1 32, some 137),  -- 1.37%
    (SizeClassInfo.mk 64 1 32, some 117),  -- 1.17%
    (SizeClassInfo.mk 72 1 32, some 278),  -- 2.78%
    (SizeClassInfo.mk 80 1 32, some 157),  -- 1.57%
    (SizeClassInfo.mk 96 1 32, some 278),  -- 2.78%
    (SizeClassInfo.mk 104 1 32, some 217),  -- 2.17%
    (SizeClassInfo.mk 112 1 32, some 278),  -- 2.78%
    (SizeClassInfo.mk 128 1 32, some 117),  -- 1.17%
    (SizeClassInfo.mk 144 1 32, some 278),  -- 2.78%
    (SizeClassInfo.mk 160 1 32, some 360),  -- 3.60%
    (SizeClassInfo.mk 176 1 32, some 237),  -- 2.37%
    (SizeClassInfo.mk 192 1 32, some 278),  -- 2.78%
    (SizeClassInfo.mk 208 1 32, some 486),  -- 4.86%
    (SizeClassInfo.mk 240 1 32, some 157),  -- 1.57%
    (SizeClassInfo.mk 272 1 32, some 157),  -- 1.57%
    (SizeClassInfo.mk 288 1 32, some 278),  -- 2.78%
    (SizeClassInfo.mk 312 1 32, some 217),  -- 2.17%
    (SizeClassInfo.mk 336 1 32, some 278),  -- 2.78%
    (SizeClassInfo.mk 408 1 32, some 157),  -- 1.57%
    (SizeClassInfo.mk 448 1 32, some 278),  -- 2.78%
    (SizeClassInfo.mk 512 1 32, some 117),  -- 1.17%
    (SizeClassInfo.mk 576 2 32, some 218),  -- 2.18%
    (SizeClassInfo.mk 640 2 32, some 729),  -- 7.29%
    (SizeClassInfo.mk 704 2 32, some 640),  -- 6.40%
    (SizeClassInfo.mk 896 2 32, some 218),  -- 2.18%
    (SizeClassInfo.mk 1024 2 32, some 59),  -- 0.59%
    (SizeClassInfo.mk 1152 3 32, some 708),  -- 7.08%
    (SizeClassInfo.mk 1280 3 32, some 708),  -- 7.08%
    (SizeClassInfo.mk 1536 3 32, some 39),  -- 0.39%
    (SizeClassInfo.mk 1792 4 32, some 188),  -- 1.88%
    (SizeClassInfo.mk 2048 4 32, some 29),  -- 0.29%
    (SizeClassInfo.mk 2304 4 28, some 188),  -- 1.88%
    (SizeClassInfo.mk 2688 4 24, some 188),  -- 1.88%
    (SizeClassInfo.mk 3200 4 20, some 270),  -- 2.70%
    (SizeClassInfo.mk 4096 4 16, some 29),  -- 0.29%
    (SizeClassInfo.mk 4736 5 13, some 836),  -- 8.36%
    (SizeClassInfo.mk 6144 3 10, some 39),  -- 0.39%
    (SizeClassInfo.mk 7168 7 9, some 17),  -- 0.17%
    (SizeClassInfo.mk 8192 4 8, some 29)  -- 0.29%
  ]

/-- Rows of the array for `TCMALLOC_PAGE_SHIFT == 13`, default-alignment branch
(size_classes.cc, array starting at line 371), each with the `<fixed>` annotation of its
trailing comment, in hundredths of a percent (`some 59` for `0.59%`, `none` for `+Inf%`). -/
def kSizeClasses_default_13_fixed : List (SizeClassInfo × Option Nat) :=
  [
    (SizeClassInfo.mk 0 0 0, none),  -- +Inf%
    (SizeClassInfo.mk 8 1 32, some 59),  -- 0.59%
    (SizeClassInfo.mk 16 1 32, some 59),  -- 0.59%
    (SizeClassInfo.mk 32 1 32, some 59),  -- 0.59%
    (SizeClassInfo.mk 48 1 32, some 98),  -- 0.98%
    (SizeClassInfo.mk 64 1 32, some 59),  -- 0.59%
    (SizeClassInfo.mk 80 1 32, some 98),  -- 0.98%
    (SizeClassInfo.mk 96 1 32, some 98),  -- 0.98%
    (SizeClassInfo.mk 112 1 32, some 78),  -- 0.78%
    (SizeClassInfo.mk 128 1 32, some 59),  -- 0.59%
    (SizeClassInfo.mk 144 1 32, some 218),  -- 2.18%
    (SizeClassInfo.mk 160 1 32, some 98),  -- 0.98%
    (SizeClassInfo.mk 176 1 32, some 178),  -- 1.78%
    (SizeClassInfo.mk 192 1 32, some 218),  -- 2.18%
    (SizeClassInfo.mk 208 1 32, some 158),  -- 1.58%
    (SizeClassInfo.mk 224 1 32, some 218),  -- 2.18%
    (SizeClassInfo.mk 240 1 32, some 98),  -- 0.98%
    (SizeClassInfo.mk 256 1 32, some 59),  -- 0.59%
    (SizeClassInfo.mk 272 1 32, some 98),  -- 0.98%
    (SizeClassInfo.mk 288 1 32, some 218),  -- 2.18%
    (SizeClassInfo.mk 304 1 32, some 425),  -- 4.25%
    (SizeClassInfo.mk 320 1 32, some 300),  -- 3.00%
    (SizeClassInfo.mk 336 1 32, some 218),  -- 2.18%
    (SizeClassInfo.mk 352 1 32, some 178),  -- 1.78%
    (SizeClassInfo.mk 368 1 32, some 178),  -- 1.78%
    (SizeClassInfo.mk 384 1 32, some 218),  -- 2.18%
    (SizeClassInfo.mk 400 1 32, some 300),  -- 3.00%
    (SizeClassInfo.mk 416 1 32, some 425),  -- 4.25%
    (SizeClassInfo.mk 448 1 32, some 218),  -- 2.18%
    (SizeClassInfo.mk 480 1 32, some 98),  -- 0.98%
    (SizeClassInfo.mk 512 1 32, some 59),  -- 0.59%
    (SizeClassInfo.mk 576 1 32, some 218),  -- 2.18%
    (SizeClassInfo.mk 640 1 32, some 729),  -- 7.29%
    (SizeClassInfo.mk 704 1 32, some 640),  -- 6.40%
    (SizeClassInfo.mk 768 1 32, some 729),  -- 7.29%
    (SizeClassInfo.mk 896 1 32, some 218),  -- 2.18%
    (SizeClassInfo.mk 1024 1 32, some 59),  -- 0.59%
    (SizeClassInfo.mk 1152 2 32, some 188),  -- 1.88%
    (SizeClassInfo.mk 1280 2 32, some 698),  -- 6.98%
    (SizeClassInfo.mk 1408 2 32, some 610),  -- 6.10%
    (SizeClassInfo.mk 1536 2 32, some 698),  -- 6.98%
    (SizeClassInfo.mk 1792 2 32, some 188),  -- 1.88%
    (SizeClassInfo.mk 2048 2 32, some 29),  -- 0.29%
    (SizeClassInfo.mk 2304 2 28, some 188),  -- 1.88%
    (SizeClassInfo.mk 2688 2 24, some 188),  -- 1.88%
    (SizeClassInfo.mk 2816 3 23, some 930),  -- 9.30%
    (SizeClassInfo.mk 3200 2 20, some 270),  -- 2.70%
    (SizeClassInfo.mk 3456 3 18, some 179),  -- 1.79%
    (SizeClassInfo.mk 3584 4 18, some 174),  -- 1.74%
    (SizeClassInfo.mk 4096 2 16, some 29),  -- 0.29%
    (SizeClassInfo.mk 4736 3 13, some 399),  -- 3.99%
    (SizeClassInfo.mk 5376 2 12, some 188),  -- 1.88%
    (SizeClassInfo.mk 6144 3 10, some 20),  -- 0.20%
    (SizeClassInfo.mk 6528 4 10, some 54),  -- 0.54%
    (SizeClassInfo.mk 6784 5 9, some 75),  -- 0.75%
    (SizeClassInfo.mk 7168 7 9, some 8),  -- 0.08%
    (SizeClassInfo.mk 8192 2 8, some 29),  -- 0.29%
    (SizeClassInfo.mk 9472 5 6, some 823),  -- 8.23%
    (SizeClassInfo.mk 10240 4 6, some 682),  -- 6.82%
    (SizeClassInfo.mk 12288 3 5, some 20),  -- 0.20%
    (SizeClassInfo.mk 13568 5 4, some 75),  -- 0.75%
    (SizeClassInfo.mk 14336 7 4, some 8),  -- 0.08%
    (SizeClassInfo.mk 16384 2 4, some 29),  -- 0.29%
    (SizeClassInfo.mk 20480 5 3, some 12),  -- 0.12%
    (SizeClassInfo.mk 24576 3 2, some 20),  -- 0.20%
    (SizeClassInfo.mk 28672 7 2, some 8),  -- 0.08%
    (SizeClassInfo.mk 32768 4 2, some 15),  -- 0.15%
    (SizeClassInfo.mk 40960 5 2, some 12),  -- 0.12%
    (SizeClassInfo.mk 49152 6 2, some 10),  -- 0.10%
    (SizeClassInfo.mk 57344 7 2, some 8),  -- 0.08%
    (SizeClassInfo.mk 65536 8 2, some 7),  -- 0.07%
    (SizeClassInfo.mk 73728 9 2, some 7),  -- 0.07%
    (SizeClassInfo.mk 81920 10 2, some 6),  -- 0.06%
    (SizeClassInfo.mk 90112 11 2, some 5),  -- 0.05%
    (SizeClassInfo.mk 98304 12 2, some 5),  -- 0.05%
    (SizeClassInfo.mk 106496 13 2, some 5),  -- 0.05%
    (SizeClassInfo.mk 114688 14 2, some 4),  -- 0.04%
    (SizeClassInfo.mk 131072 16 2, some 4),  -- 0.04%
    (SizeClassInfo.mk 139264 17 2, some 3),  -- 0.03%
    (SizeClassInfo.mk 155648 19 2, some 3),  -- 0.03%
    (SizeClassInfo.mk 172032 21 2, some 3),  -- 0.03%
    (SizeClassInfo.mk 196608 24 2, some 2),  -- 0.02%
    (SizeClassInfo.mk 204800 25 2, some 2),  -- 0.02%
    (SizeClassInfo.mk 221184 27 2, some 2),  -- 0.02%
    (SizeClassInfo.mk 245760 30 2, some 2),  -- 0.02%
    (SizeClassInfo.mk 262144 32 2, some 2)  -- 0.02%
  ]

/-- Rows of the array for `TCMALLOC_PAGE_SHIFT == 15`, default-alignment branch
(size_classes.cc, array starting at line 462), each with the `<fixed>` annotation of its
trailing comment, in hundredths of a percent (`some 59` for `0.59%`, `none` for `+Inf%`). -/
def kSizeClasses_default_15_fixed : List (SizeClassInfo × Option Nat) :=
  [
    (SizeClassInfo.mk 0 0 0, none),  -- +Inf%
    (SizeClassInfo.mk 8 1 32, some 15),  -- 0.15%
    (SizeClassInfo.mk 16 1 32, some 15),  -- 0.15%
    (SizeClassInfo.mk 32 1 32, some 15),  -- 0.15%
    (SizeClassInfo.mk 48 1 32, some 24),  -- 0.24%
    (SizeClassInfo.mk 64 1 32, some 15),  -- 0.15%
    (SizeClassInfo.mk 80 1 32, some 29),  -- 0.29%
    (SizeClassInfo.mk 96 1 32, some 24),  -- 0.24%
    (SizeClassInfo.mk 112 1 32, some 34),  -- 0.34%
    (SizeClassInfo.mk 128 1 32, some 15),  -- 0.15%
    (SizeClassInfo.mk 144 1 32, some 39),  -- 0.39%
    (SizeClassInfo.mk 160 1 32, some 54),  -- 0.54%
    (SizeClassInfo.mk 176 1 32, some 24),  -- 0.24%
    (SizeClassInfo.mk 192 1 32, some 54),  -- 0.54%
    (SizeClassInfo.mk 208 1 32, some 49),  -- 0.49%
    (SizeClassInfo.mk 224 1 32, some 34),  -- 0.34%
    (SizeClassInfo.mk 240 1 32, some 54),  -- 0.54%
    (SizeClassInfo.mk 256 1 32, some 15),  -- 0.15%
    (SizeClassInfo.mk 272 1 32, some 54),  -- 0.54%
    (SizeClassInfo.mk 288 1 32, some 84),  -- 0.84%
    (SizeClassInfo.mk 304 1 32, some 89),  -- 0.89%
    (SizeClassInfo.mk 336 1 32, some 69),  -- 0.69%
    (SizeClassInfo.mk 368 1 32, some 20),  -- 0.20%
    (SizeClassInfo.mk 400 1 32, some 128),  -- 1.28%
    (SizeClassInfo.mk 416 1 32, some 113),  -- 1.13%
    (SizeClassInfo.mk 464 1 32, some 103),  -- 1.03%
    (SizeClassInfo.mk 512 1 32, some 15),  -- 0.15%
    (SizeClassInfo.mk 576 1 32, some 174),  -- 1.74%
    (SizeClassInfo.mk 640 1 32, some 54),  -- 0.54%
    (SizeClassInfo.mk 704 1 32, some 133),  -- 1.33%
    (SizeClassInfo.mk 768 1 32, some 174),  -- 1.74%
    (SizeClassInfo.mk 832 1 32, some 113),  -- 1.13%
    (SizeClassInfo.mk 896 1 32, some 174),  -- 1.74%
    (SizeClassInfo.mk 960 1 32, some 54),  -- 0.54%
    (SizeClassInfo.mk 1024 1 32, some 15),  -- 0.15%
    (SizeClassInfo.mk 1152 1 32, some 174),  -- 1.74%
    (SizeClassInfo.mk 1280 1 32, some 255),  -- 2.55%
    (SizeClassInfo.mk 1408 1 32, some 133),  -- 1.33%
    (SizeClassInfo.mk 1536 1 32, some 174),  -- 1.74%
    (SizeClassInfo.mk 1664 1 32, some 380),  -- 3.80%
    (SizeClassInfo.mk 1920 1 32, some 54),  -- 0.54%
    (SizeClassInfo.mk 2048 1 32, some 15),  -- 0.15%
    (SizeClassInfo.mk 2176 1 30, some 54),  -- 0.54%
    (SizeClassInfo.mk 2304 1 28, some 174),  -- 1.74%
    (SizeClassInfo.mk 2432 1 26, some 380),  -- 3.80%
    (SizeClassInfo.mk 2688 1 24, some 174),  -- 1.74%
    (SizeClassInfo.mk 2944 1 22, some 133),  -- 1.33%
    (SizeClassInfo.mk 3200 1 20, some 255),  -- 2.55%
    (SizeClassInfo.mk 3584 1 18, some 174),  -- 1.74%
    (SizeClassInfo.mk 4096 1 16, some 15),  -- 0.15%
    (SizeClassInfo.mk 4608 1 14, some 174),  -- 1.74%
    (SizeClassInfo.mk 5376 1 12, some 174),  -- 1.74%
    (SizeClassInfo.mk 6528 1 10, some 54),  -- 0.54%
    (SizeClassInfo.mk 7168 2 9, some 166),  -- 1.66%
    (SizeClassInfo.mk 8192 1 8, some 15),  -- 0.15%
    (SizeClassInfo.mk 9344 2 7, some 27),  -- 0.27%
    (SizeClassInfo.mk 10880 1 6, some 54),  -- 0.54%
    (SizeClassInfo.mk 13056 2 5, some 47),  -- 0.47%
    (SizeClassInfo.mk 13952 3 4, some 70),  -- 0.70%
    (SizeClassInfo.mk 16384 1 4, some 15),  -- 0.15%
    (SizeClassInfo.mk 19072 3 3, some 314),  -- 3.14%
    (SizeClassInfo.mk 21760 2 3, some 47),  -- 0.47%
    (SizeClassInfo.mk 24576 3 2, some 5),  -- 0.05%
    (SizeClassInfo.mk 28032 6 2, some 22),  -- 0.22%
    (SizeClassInfo.mk 32768 1 2, some 15),  -- 0.15%
    (SizeClassInfo.mk 38144 5 2, some 741),  -- 7.41%
    (SizeClassInfo.mk 40960 4 2, some 671),  -- 6.71%
    (SizeClassInfo.mk 49152 3 2, some 5),  -- 0.05%
    (SizeClassInfo.mk 57344 7 2, some 2),  -- 0.02%
    (SizeClassInfo.mk 65536 2 2, some 7),  -- 0.07%
    (SizeClassInfo.mk 81920 5 2, some 3),  -- 0.03%
    (SizeClassInfo.mk 98304 3 2, some 5),  -- 0.05%
    (SizeClassInfo.mk 114688 7 2, some 2),  -- 0.02%
    (SizeClassInfo.mk 131072 4 2, some 4),  -- 0.04%
    (SizeClassInfo.mk 163840 5 2, some 3),  -- 0.03%
    (SizeClassInfo.mk 196608 6 2, some 2),  -- 0.02%
    (SizeClassInfo.mk 229376 7 2, some 2),  -- 0.02%
    (SizeClassInfo.mk 262144 8 2, some 2)  -- 0.02%
  ]

/-- Rows of the array for `TCMALLOC_PAGE_SHIFT == 18`, default-alignment branch
(size_classes.cc, array starting at line 549), each with the `<fixed>` annotation of its
trailing comment, in hundredths of a percent (`some 59` for `0.59%`, `none` for `+Inf%`);
the conditional blocks are those of the table itself. The four rows added under
`TCMALLOC_4M_MAX_SIZE` carry no annotation (`none`). -/
def kSizeClasses_default_18_fixed (TCMALLOC_4M_MAX_SIZE : Bool) :
    List (SizeClassInfo × Option Nat) :=
  [
    (SizeClassInfo.mk 0 0 0, none),  -- +Inf%
    (SizeClassInfo.mk 8 1 32, some 2),  -- 0.02%
    (SizeClassInfo.mk 16 1 32, some 2),  -- 0.02%
    (SizeClassInfo.mk 32 1 32, some 2),  -- 0.02%
    (SizeClassInfo.mk 48 1 32, some 2),  -- 0.02%
    (SizeClassInfo.mk 64 1 32, some 2),  -- 0.02%
    (SizeClassInfo.mk 80 1 32, some 4),  -- 0.04%
    (SizeClassInfo.mk 96 1 32, some 4),  -- 0.04%
    (SizeClassInfo.mk 112 1 32, some 4),  -- 0.04%
    (SizeClassInfo.mk 128 1 32, some 2),  -- 0.02%
    (SizeClassInfo.mk 144 1 32, some 4),  -- 0.04%
    (SizeClassInfo.mk 160 1 32, some 4),  -- 0.04%
    (SizeClassInfo.mk 176 1 32, some 5),  -- 0.05%
    (SizeClassInfo.mk 192 1 32, some 4),  -- 0.04%
    (SizeClassInfo.mk 208 1 32, some 4),  -- 0.04%
    (SizeClassInfo.mk 224 1 32, some 4),  -- 0.04%
    (SizeClassInfo.mk 240 1 32, some 4),  -- 0.04%
    (SizeClassInfo.mk 256 1 32, some 2),  -- 0.02%
    (SizeClassInfo.mk 288 1 32, some 4),  -- 0.04%
    (SizeClassInfo.mk 304 1 32, some 5),  -- 0.05%
    (SizeClassInfo.mk 320 1 32, some 4),  -- 0.04%
    (SizeClassInfo.mk 352 1 32, some 12),  -- 0.12%
    (SizeClassInfo.mk 384 1 32, some 12),  -- 0.12%
    (SizeClassInfo.mk 416 1 32, some 4),  -- 0.04%
    (SizeClassInfo.mk 464 1 32, some 19),  -- 0.19%
    (SizeClassInfo.mk 512 1 32, some 2),  -- 0.02%
    (SizeClassInfo.mk 576 1 32, some 4),  -- 0.04%
    (SizeClassInfo.mk 640 1 32, some 17),  -- 0.17%
    (SizeClassInfo.mk 704 1 32, some 12),  -- 0.12%
    (SizeClassInfo.mk 832 1 32, some 4),  -- 0.04%
    (SizeClassInfo.mk 960 1 32, some 4),  -- 0.04%
    (SizeClassInfo.mk 1024 1 32, some 2),  -- 0.02%
    (SizeClassInfo.mk 1152 1 32, some 26),  -- 0.26%
    (SizeClassInfo.mk 1280 1 32, some 41),  -- 0.41%
    (SizeClassInfo.mk 1408 1 32, some 12),  -- 0.12%
    (SizeClassInfo.mk 1536 1 32, some 41),  -- 0.41%
    (SizeClassInfo.mk 1664 1 32, some 36),  -- 0.36%
    (SizeClassInfo.mk 1792 1 32, some 21),  -- 0.21%
    (SizeClassInfo.mk 1920 1 32, some 41),  -- 0.41%
    (SizeClassInfo.mk 2048 1 32, some 2),  -- 0.02%
    (SizeClassInfo.mk 2176 1 30, some 41),  -- 0.41%
    (SizeClassInfo.mk 2304 1 28, some 71),  -- 0.71%
    (SizeClassInfo.mk 2432 1 26, some 76),  -- 0.76%
    (SizeClassInfo.mk 2688 1 24, some 56),  -- 0.56%
    (SizeClassInfo.mk 2944 1 22, some 7),  -- 0.07%
    (SizeClassInfo.mk 3328 1 19, some 100),  -- 1.00%
    (SizeClassInfo.mk 3584 1 18, some 21),  -- 0.21%
    (SizeClassInfo.mk 4096 1 16, some 2),  -- 0.02%
    (SizeClassInfo.mk 4736 1 13, some 66),  -- 0.66%
    (SizeClassInfo.mk 5120 1 12, some 41),  -- 0.41%
    (SizeClassInfo.mk 5504 1 11, some 135),  -- 1.35%
    (SizeClassInfo.mk 5760 1 11, some 115),  -- 1.15%
    (SizeClassInfo.mk 6144 1 10, some 161),  -- 1.61%
    (SizeClassInfo.mk 6528 1 10, some 41),  -- 0.41%
    (SizeClassInfo.mk 7168 1 9, some 161),  -- 1.61%
    (SizeClassInfo.mk 7680 1 8, some 41),  -- 0.41%
    (SizeClassInfo.mk 8192 1 8, some 2)  -- 0.02%
  ] ++
  (if TCMALLOC_4M_MAX_SIZE then [] else [
    (SizeClassInfo.mk 8704 1 7, some 41),  -- 0.41%
    (SizeClassInfo.mk 9344 1 7, some 21),  -- 0.21%
    (SizeClassInfo.mk 9984 1 6, some 100),  -- 1.00%
    (SizeClassInfo.mk 10880 1 6, some 41)  -- 0.41%
  ]) ++
  [
    (SizeClassInfo.mk 11904 1 5, some 12),  -- 0.12%
    (SizeClassInfo.mk 13056 1 5, some 41),  -- 0.41%
    (SizeClassInfo.mk 14464 1 4, some 71),  -- 0.71%
    (SizeClassInfo.mk 16384 1 4, some 2),  -- 0.02%
    (SizeClassInfo.mk 17408 1 3, some 41),  -- 0.41%
    (SizeClassInfo.mk 18688 1 3, some 21),  -- 0.21%
    (SizeClassInfo.mk 20096 1 3, some 36),  -- 0.36%
    (SizeClassInfo.mk 21760 1 3, some 41),  -- 0.41%
    (SizeClassInfo.mk 23808 1 2, some 12),  -- 0.12%
    (SizeClassInfo.mk 26112 1 2, some 41),  -- 0.41%
    (SizeClassInfo.mk 29056 1 2, some 26),  -- 0.26%
    (SizeClassInfo.mk 32768 1 2, some 2),  -- 0.02%
    (SizeClassInfo.mk 37376 1 2, some 21),  -- 0.21%
    (SizeClassInfo.mk 43648 1 2, some 12),  -- 0.12%
    (SizeClassInfo.mk 45568 2 2, some 461),  -- 4.61%
    (SizeClassInfo.mk 52352 1 2, some 17),  -- 0.17%
    (SizeClassInfo.mk 56064 2 2, some 392),  -- 3.92%
    (SizeClassInfo.mk 65536 1 2, some 2),  -- 0.02%
    (SizeClassInfo.mk 74880 2 2, some 3),  -- 0.03%
    (SizeClassInfo.mk 87296 1 2, some 12),  -- 0.12%
    (SizeClassInfo.mk 104832 2 2, some 3),  -- 0.03%
    (SizeClassInfo.mk 112256 3 2, some 9),  -- 0.09%
    (SizeClassInfo.mk 131072 1 2, some 2),  -- 0.02%
    (SizeClassInfo.mk 149760 3 2, some 503),  -- 5.03%
    (SizeClassInfo.mk 174720 2 2, some 3),  -- 0.03%
    (SizeClassInfo.mk 196608 3 2, some 1),  -- 0.01%
    (SizeClassInfo.mk 209664 4 2, some 3),  -- 0.03%
    (SizeClassInfo.mk 262144 1 2, some 2)  -- 0.02%
  ] ++
  (if TCMALLOC_4M_MAX_SIZE then [
    (SizeClassInfo.mk (512 <<< 10) 2 2, none),
    (SizeClassInfo.mk (1 <<< 20) 4 2, none),
    (SizeClassInfo.mk (2 <<< 20) 8 2, none),
    (SizeClassInfo.mk (4 <<< 20) 16 2, none)
  ] else [])

/-- Rows of the array for `TCMALLOC_PAGE_SHIFT == 12`, default-alignment branch
(size_classes.cc, array starting at line 651), each with the `<fixed>` annotation of its
trailing comment, in hundredths of a percent (`some 59` for `0.59%`, `none` for `+Inf%`). -/
def kSizeClasses_default_12_fixed : List (SizeClassInfo × Option Nat) :=
  [
    (SizeClassInfo.mk 0 0 0, none),  -- +Inf%
    (SizeClassInfo.mk 8 1 32, some 117),  -- 1.17%
    (SizeClassInfo.mk 16 1 32, some 117),  -- 1.17%
    (SizeClassInfo.mk 32 1 32, some 117),  -- 1.17%
    (SizeClassInfo.mk 48 1 32, some 157),  -- 1.57%
    (SizeClassInfo.mk 64 1 32, some 117),  -- 1.17%
    (SizeClassInfo.mk 80 1 32, some 157),  -- 1.57%
    (SizeClassInfo.mk 96 1 32, some 278),  -- 2.78%
    (SizeClassInfo.mk 112 1 32, some 278),  -- 2.78%
    (SizeClassInfo.mk 128 1 32, some 117),  -- 1.17%
    (SizeClassInfo.mk 144 1 32, some 278),  -- 2.78%
    (SizeClassInfo.mk 160 1 32, some 360),  -- 3.60%
    (SizeClassInfo.mk 176 1 32, some 237),  -- 2.37%
    (SizeClassInfo.mk 192 1 32, some 278),  -- 2.78%
    (SizeClassInfo.mk 208 1 32, some 486),  -- 4.86%
    (SizeClassInfo.mk 224 1 32, some 278),  -- 2.78%
    (SizeClassInfo.mk 240 1 32, some 157),  -- 1.57%
    (SizeClassInfo.mk 256 1 32, some 117),  -- 1.17%
    (SizeClassInfo.mk 272 1 32, some 157),  -- 1.57%
    (SizeClassInfo.mk 288 1 32, some 278),  -- 2.78%
    (SizeClassInfo.mk 304 1 32, some 486),  -- 4.86%
    (SizeClassInfo.mk 336 1 32, some 278),  -- 2.78%
    (SizeClassInfo.mk 368 1 32, some 237),  -- 2.37%
    (SizeClassInfo.mk 400 1 32, some 360),  -- 3.60%
    (SizeClassInfo.mk 448 1 32, some 278),  -- 2.78%
    (SizeClassInfo.mk 512 1 32, some 117),  -- 1.17%
    (SizeClassInfo.mk 576 2 32, some 218),  -- 2.18%
    (SizeClassInfo.mk 640 2 32, some 729),  -- 7.29%
    (SizeClassInfo.mk 704 2 32, some 640),  -- 6.40%
    (SizeClassInfo.mk 768 2 32, some 729),  -- 7.29%
    (SizeClassInfo.mk 896 2 32, some 218),  -- 2.18%
    (SizeClassInfo.mk 1024 2 32, some 59),  -- 0.59%
    (SizeClassInfo.mk 1152 3 32, some 708),  -- 7.08%
    (SizeClassInfo.mk 1280 3 32, some 708),  -- 7.08%
    (SizeClassInfo.mk 1536 3 32, some 39),  -- 0.39%
    (SizeClassInfo.mk 1792 4 32, some 188),  -- 1.88%
    (SizeClassInfo.mk 2048 4 32, some 29),  -- 0.29%
    (SizeClassInfo.mk 2304 4 28, some 188),  -- 1.88%
    (SizeClassInfo.mk 2688 4 24, some 188),  -- 1.88%
    (SizeClassInfo.mk 3200 4 20, some 270),  -- 2.70%
    (SizeClassInfo.mk 3584 7 18, some 17),  -- 0.17%
    (SizeClassInfo.mk 4096 4 16, some 29),  -- 0.29%
    (SizeClassInfo.mk 4736 5 13, some 836),  -- 8.36%
    (SizeClassInfo.mk 6144 3 10, some 39),  -- 0.39%
    (SizeClassInfo.mk 7168 7 9, some 17),  -- 0.17%
    (SizeClassInfo.mk 8192 4 8, some 29)  -- 0.29%
  ]

/-- The rows of `SizeMap::kSizeClasses` together with their `<fixed>` annotations, selected
by the same conditionals as `kSizeClasses`. -/
def kSizeClassesFixed (alignedNew : Bool) (TCMALLOC_PAGE_SHIFT : Nat)
    (TCMALLOC_4M_MAX_SIZE : Bool) : Except String (List (SizeClassInfo × Option Nat)) :=
  if alignedNew then
    if TCMALLOC_PAGE_SHIFT = 13 then .ok kSizeClasses_aligned_13_fixed
    else if TCMALLOC_PAGE_SHIFT = 15 then .ok kSizeClasses_aligned_15_fixed
    else if TCMALLOC_PAGE_SHIFT = 18 then
      .ok (kSizeClasses_aligned_18_fixed TCMALLOC_4M_MAX_SIZE)
    else if TCMALLOC_PAGE_SHIFT = 12 then .ok kSizeClasses_aligned_12_fixed
    else .error "Unsupported TCMALLOC_PAGE_SHIFT value!"
  else
    if TCMALLOC_PAGE_SHIFT = 13 then .ok kSizeClasses_default_13_fixed
    else if TCMALLOC_PAGE_SHIFT = 15 then .ok kSizeClasses_default_15_fixed
    else if TCMALLOC_PAGE_SHIFT = 18 then
      .ok (kSizeClasses_default_18_fixed TCMALLOC_4M_MAX_SIZE)
    else if TCMALLOC_PAGE_SHIFT = 12 then .ok kSizeClasses_default_12_fixed
    else .error "Unsupported TCMALLOC_PAGE_SHIFT value!"

/-- Bytes left over at the end of a span of class `e`: what remains of
`pagesPerSpan * pageSize` bytes once they are cut into objects of `e.size` bytes (the
"32 bytes left over" of the file's header comment). -/
def SizeClassInfo.leftover (e : SizeClassInfo) (pageSize : Nat) : Nat :=
  (e.pagesPerSpan * pageSize) % e.size

/-- The fixed overhead of the file's header comment, "wasted/allocated": the leftover bytes
plus 48 bytes of per-span metadata, over the bytes handed out as objects,
`(32 + 48) / (8192 - 32)` in the comment's example. An exact rational. -/
def SizeClassInfo.fixedOverhead (e : SizeClassInfo) (pageSize : Nat) : ℚ :=
  ((e.leftover pageSize + 48 : Nat) : ℚ)
    / ((e.pagesPerSpan * pageSize - e.leftover pageSize : Nat) : ℚ)

/-- Boolean test: the relation `r` holds between every element of the list and its
successor. -/
def adjacentAll (r : Nat → Nat → Bool) : List Nat → Bool
  | a :: b :: rest => r a b && adjacentAll r (b :: rest)
  | _ => true

/-- The selected annotated rows, or the empty list when the build fails. -/
def rowsOf (alignedNew : Bool) (TCMALLOC_PAGE_SHIFT : Nat) (TCMALLOC_4M_MAX_SIZE : Bool) :
    List (SizeClassInfo × Option Nat) :=
  match kSizeClassesFixed alignedNew TCMALLOC_PAGE_SHIFT TCMALLOC_4M_MAX_SIZE with
  | .ok rows => rows
  | .error _ => []

/-! ## General lemmas -/

theorem kSizeClasses_ok_shift {a : Bool} {s : Nat} {f : Bool} {t : List SizeClassInfo}
    (h : kSizeClasses a s f = .ok t) : s = 13 ∨ s = 15 ∨ s = 18 ∨ s = 12 := by
  unfold kSizeClasses at h
  by_cases h13 : s = 13
  · exact Or.inl h13
  by_cases h15 : s = 15
  · exact Or.inr (Or.inl h15)
  by_cases h18 : s = 18
  · exact Or.inr (Or.inr (Or.inl h18))
  by_cases h12 : s = 12
  · exact Or.inr (Or.inr (Or.inr h12))
  simp [h13, h15, h18, h12] at h

theorem kSizeClasses_ok_mem_variants {a : Bool} {s : Nat} {f : Bool} {t : List SizeClassInfo}
    (h : kSizeClasses a s f = .ok t) : (a, s, f) ∈ variants := by
  rcases kSizeClasses_ok_shift h with rfl | rfl | rfl | rfl <;>
    cases a <;> cases f <;> decide

theorem tableOf_eq_of_ok {a : Bool} {s : Nat} {f : Bool} {t : List SizeClassInfo}
    (h : kSizeClasses a s f = .ok t) : tableOf a s f = t := by
  simp [tableOf, h]

/-- A boolean check that passes on every configuration of `variants` holds of every table
the preprocessor can select. -/
theorem checkVariants_sound {c : Bool → Nat → Bool → List SizeClassInfo → Bool}
    (hc : checkVariants c = true) {a : Bool} {s : Nat} {f : Bool} {t : List SizeClassInfo}
    (h : kSizeClasses a s f = .ok t) : c a s f t = true := by
  have hv := List.all_eq_true.mp hc _ (kSizeClasses_ok_mem_variants h)
  simpa [tableOf_eq_of_ok h] using hv

theorem strictlyIncreasing_getElem :
    ∀ (l : List Nat), strictlyIncreasing l = true →
      ∀ (i : Nat) (h : i + 1 < l.length), l[i] < l[i + 1]
  | [], _, i, h => by simp at h
  | [_], _, i, h => by simp at h
  | a :: b :: rest, hl, i, h => by
    simp only [strictlyIncreasing, Bool.and_eq_true, decide_eq_true_eq] at hl
    cases i with
    | zero => simpa using hl.1
    | succ j =>
      have := strictlyIncreasing_getElem (b :: rest) hl.2 j (by simpa using h)
      simpa using this

/-! ## The claims -/

/-- C1: in every table variant the sizes are strictly increasing, that is, for every index
`i` with `1 ≤ i < N`, `table[i].size > table[i-1].size`. -/
theorem kSizeClasses_size_strictly_increasing (alignedNew : Bool) (shift : Nat) (fourM : Bool)
    (table : List SizeClassInfo) (hsel : kSizeClasses alignedNew shift fourM = .ok table)
    (i : Nat) (h1 : 1 ≤ i) (hN : i < table.length) :
    table[i].size > table[i - 1].size := by
  have hc : checkVariants (fun _ _ _ t => strictlyIncreasing (t.map (·.size))) = true := by
    decide
  have hinc := checkVariants_sound hc hsel
  obtain ⟨j, rfl⟩ : ∃ j, i = j + 1 := ⟨i - 1, by omega⟩
  have := strictlyIncreasing_getElem _ hinc j (by simpa using hN)
  simpa using this

/-- Witness for C1: the 8 KiB, aligned-new table at index 1. -/
theorem kSizeClasses_size_strictly_increasing_witness :
    kSizeClasses true 13 false = .ok kSizeClasses_aligned_13 ∧
      (kSizeClasses_aligned_13[1]).size > (kSizeClasses_aligned_13[1 - 1]).size :=
  ⟨rfl, kSizeClasses_size_strictly_increasing true 13 false kSizeClasses_aligned_13 rfl 1
    (by decide) (by decide)⟩

theorem getElem_mem_tail {α : Type} (l : List α) (i : Nat) (h1 : 1 ≤ i) (h : i < l.length) :
    l[i] ∈ l.tail := by
  cases l with
  | nil => simp at h
  | cons a rest =>
    cases i with
    | zero => omega
    | succ j => simp [List.getElem_mem]

/-- A decidable property that holds on every configuration of `variants` holds of every
table the preprocessor can select. -/
theorem forall_variants {P : Bool → Nat → Bool → List SizeClassInfo → Prop}
    [∀ a s f t, Decidable (P a s f t)]
    (hc : checkVariants (fun a s f t => decide (P a s f t)) = true)
    {a : Bool} {s : Nat} {f : Bool} {t : List SizeClassInfo}
    (h : kSizeClasses a s f = .ok t) : P a s f t :=
  of_decide_eq_true (checkVariants_sound hc h)

/-- C2: in every table variant, with `pageSize = 2^TCMALLOC_PAGE_SHIFT`, every entry `i`
satisfies `table[i].size ≤ table[i].pagesPerSpan * pageSize`. -/
theorem kSizeClasses_size_le_span (alignedNew : Bool) (shift : Nat) (fourM : Bool)
    (table : List SizeClassInfo) (hsel : kSizeClasses alignedNew shift fourM = .ok table)
    (i : Nat) (hN : i < table.length) :
    table[i].size ≤ table[i].pagesPerSpan * pageSize shift := by
  have hall : ∀ e ∈ table, e.size ≤ e.pagesPerSpan * pageSize shift :=
    forall_variants (P := fun _ s _ t => ∀ e ∈ t, e.size ≤ e.pagesPerSpan * pageSize s)
      (by decide) hsel
  exact hall _ (List.getElem_mem _)

/-- Witness for C2: the last entry of the 256 KiB table with 4 MiB classes. -/
theorem kSizeClasses_size_le_span_witness :
    kSizeClasses false 18 true = .ok (kSizeClasses_default_18 true) ∧
      ((kSizeClasses_default_18 true)[88]).size
        ≤ ((kSizeClasses_default_18 true)[88]).pagesPerSpan * pageSize 18 :=
  ⟨rfl, kSizeClasses_size_le_span false 18 true (kSizeClasses_default_18 true) rfl 88
    (by decide)⟩

/-- The last row of every selected table carries the size that the branch's
`static_assert` requires of `kMaxSize`, with the value listed per page shift. -/
theorem getLast_size_eq_kMaxSize {a : Bool} {s : Nat} {f : Bool} {t : List SizeClassInfo}
    (h : kSizeClasses a s f = .ok t) :
    ∃ last, t.getLast? = some last ∧ kMaxSize a s f = .ok last.size ∧
      last.size = (if s = 12 then 8192 else if s = 18 ∧ f = true then 4194304 else 262144) := by
  have hP := forall_variants
    (P := fun a s f t => t.getLast?.map (·.size) = (kMaxSize a s f).toOption ∧
      (kMaxSize a s f).toOption
        = some (if s = 12 then 8192 else if s = 18 ∧ f = true then 4194304 else 262144))
    (by decide) h
  obtain ⟨h1, h2⟩ := hP
  rw [h2] at h1
  cases hl : t.getLast? with
  | none => simp [hl] at h1
  | some last =>
    simp only [hl, Option.map_some', Option.some.injEq] at h1
    refine ⟨last, rfl, ?_, h1⟩
    cases hk : kMaxSize a s f with
    | error e => simp [hk, Except.toOption] at h2
    | ok m =>
      simp only [hk, Except.toOption, Option.some.injEq] at h2
      rw [h1, h2]

/-- C3: in every table variant the last entry's size equals exactly the `kMaxSize` that the
variant's `static_assert` requires: 8192 for page shift 12, 262144 for page shifts 13 and 15
and for shift 18 without `TCMALLOC_4M_MAX_SIZE`, and 4194304 (`4<<20`) for shift 18 with
`TCMALLOC_4M_MAX_SIZE`. -/
theorem kSizeClasses_last_size_eq_kMaxSize (alignedNew : Bool) (shift : Nat) (fourM : Bool)
    (table : List SizeClassInfo) (hsel : kSizeClasses alignedNew shift fourM = .ok table) :
    ∃ last, table.getLast? = some last ∧ kMaxSize alignedNew shift fourM = .ok last.size ∧
      (shift = 12 → last.size = 8192) ∧
      (shift = 13 ∨ shift = 15 ∨ (shift = 18 ∧ fourM = false) → last.size = 262144) ∧
      (shift = 18 ∧ fourM = true → last.size = 4194304 ∧ last.size = 4 <<< 20) := by
  obtain ⟨last, hl, hk, hv⟩ := getLast_size_eq_kMaxSize hsel
  refine ⟨last, hl, hk, ?_, ?_, ?_⟩
  · intro h12
    simpa [h12] using hv
  · rintro (h | h | ⟨h, hf⟩)
    · simpa [h] using hv
    · simpa [h] using hv
    · simpa [h, hf] using hv
  · rintro ⟨h, hf⟩
    have : last.size = 4194304 := by simpa [h, hf] using hv
    exact ⟨this, by rw [this]; decide⟩

/-- Witness for C3: the 256 KiB, aligned-new table with `TCMALLOC_4M_MAX_SIZE`. -/
theorem kSizeClasses_last_size_eq_kMaxSize_witness :
    kSizeClasses true 18 true = .ok (kSizeClasses_aligned_18 true) ∧
    ∃ last, (kSizeClasses_aligned_18 true).getLast? = some last ∧
      kMaxSize true 18 true = .ok last.size ∧
      ((18 : Nat) = 12 → last.size = 8192) ∧
      ((18 : Nat) = 13 ∨ (18 : Nat) = 15 ∨ ((18 : Nat) = 18 ∧ true = false) →
        last.size = 262144) ∧
      ((18 : Nat) = 18 ∧ true = true → last.size = 4194304 ∧ last.size = 4 <<< 20) :=
  ⟨rfl, kSizeClasses_last_size_eq_kMaxSize true 18 true (kSizeClasses_aligned_18 true) rfl⟩

/-! ### The search `classFor` -/

theorem classFor_eq_none_iff (l : List SizeClassInfo) (sz : Nat) :
    classFor l sz = none ↔ ∀ e ∈ l, e.size < sz := by
  induction l with
  | nil => simp [classFor]
  | cons e rest ih =>
    by_cases h : sz ≤ e.size
    · simp only [classFor, h, if_true, List.mem_cons, forall_eq_or_imp, false_iff,
        not_and, reduceCtorEq]
      intro hlt
      omega
    · simp only [classFor, h, if_false, Option.map_eq_none', ih, List.mem_cons,
        forall_eq_or_imp]
      constructor
      · intro hr
        exact ⟨by omega, hr⟩
      · intro hr
        exact hr.2

theorem classFor_eq_some (l : List SizeClassInfo) (sz i : Nat) (h : classFor l sz = some i) :
    ∃ hi : i < l.length, sz ≤ l[i].size ∧ ∀ (j : Nat) (hj : j < i), l[j].size < sz := by
  induction l generalizing i with
  | nil => simp [classFor] at h
  | cons e rest ih =>
    by_cases hle : sz ≤ e.size
    · simp only [classFor, hle, if_true, Option.some.injEq] at h
      subst h
      exact ⟨by simp, by simpa using hle, fun j hj => absurd hj (Nat.not_lt_zero j)⟩
    · simp only [classFor, hle, if_false, Option.map_eq_some'] at h
      obtain ⟨k, hk, rfl⟩ := h
      obtain ⟨hlen, hfit, hmin⟩ := ih k hk
      refine ⟨by simpa using hlen, by simpa using hfit, ?_⟩
      intro j hj
      cases j with
      | zero => simpa using Nat.lt_of_not_le hle
      | succ j' => simpa using hmin j' (by omega)

theorem strictlyIncreasing_lt (l : List Nat) (hl : strictlyIncreasing l = true)
    (i k : Nat) (hik : i < k) (hk : k < l.length) : l[i] < l[k] := by
  induction k with
  | zero => omega
  | succ n ih =>
    have hstep := strictlyIncreasing_getElem l hl n hk
    by_cases hin : i = n
    · subst hin
      exact hstep
    · exact Nat.lt_trans (ih (by omega) (by omega)) hstep

/-- Sizes of a selected table are strictly increasing in the index. -/
theorem kSizeClasses_size_lt {a : Bool} {s : Nat} {f : Bool} {t : List SizeClassInfo}
    (h : kSizeClasses a s f = .ok t) (i k : Nat) (hik : i < k) (hk : k < t.length) :
    t[i].size < t[k].size := by
  have hc : checkVariants (fun _ _ _ t => strictlyIncreasing (t.map (·.size))) = true := by
    decide
  have := strictlyIncreasing_lt _ (checkVariants_sound hc h) i k hik (by simpa using hk)
  simpa using this

/-- C4: for every table variant and every requested size `s` with `0 < s ≤ kMaxSize`,
`classFor(s)` is an index `i` of the table, it is the smallest index with
`table[i].size ≥ s`, `usableSize(classFor(s)) = table[i].size ≥ s`, no class of the table has
a size `t` with `s ≤ t < table[i].size`, and a request equal to a class size maps to that
class. -/
theorem classFor_smallest_fit (alignedNew : Bool) (shift : Nat) (fourM : Bool)
    (table : List SizeClassInfo) (maxSize : Nat)
    (hsel : kSizeClasses alignedNew shift fourM = .ok table)
    (hmax : kMaxSize alignedNew shift fourM = .ok maxSize)
    (s : Nat) (_hpos : 0 < s) (hle : s ≤ maxSize) :
    ∃ (i : Nat) (hi : i < table.length),
      classFor table s = some i ∧
      s ≤ table[i].size ∧
      (∀ (j : Nat) (hj : j < i), table[j].size < s) ∧
      usableSize table i = some table[i].size ∧
      (∀ (k : Nat) (hk : k < table.length), ¬ (s ≤ table[k].size ∧ table[k].size < table[i].size)) ∧
      (∀ (k : Nat) (hk : k < table.length), table[k].size = s → k = i) := by
  obtain ⟨last, hlast, hk, -⟩ := getLast_size_eq_kMaxSize hsel
  have hm : last.size = maxSize := by
    rw [hk] at hmax
    exact Except.ok.inj hmax
  have hmem : last ∈ table := List.mem_of_getLast?_eq_some hlast
  cases hc : classFor table s with
  | none =>
    have := (classFor_eq_none_iff table s).mp hc last hmem
    omega
  | some i =>
    obtain ⟨hi, hfit, hmin⟩ := classFor_eq_some table s i hc
    refine ⟨i, hi, rfl, hfit, hmin, ?_, ?_, ?_⟩
    · simp [usableSize, List.getElem?_eq_getElem hi]
    · rintro k hk' ⟨h1, h2⟩
      rcases Nat.lt_trichotomy k i with hlt | heq | hgt
      · have := hmin k hlt
        omega
      · subst heq
        omega
      · have := kSizeClasses_size_lt hsel i k hgt hk'
        omega
    · intro k hk' heq
      rcases Nat.lt_trichotomy k i with hlt | heq' | hgt
      · have := hmin k hlt
        omega
      · exact heq'
      · have := kSizeClasses_size_lt hsel i k hgt hk'
        omega

/-- Witness for C4: a request of 100 bytes against the 4 KiB default-alignment table. -/
theorem classFor_smallest_fit_witness :
    kSizeClasses false 12 false = .ok kSizeClasses_default_12 ∧
    kMaxSize false 12 false = .ok 8192 ∧
    ∃ (i : Nat) (hi : i < kSizeClasses_default_12.length),
      classFor kSizeClasses_default_12 100 = some i ∧
      100 ≤ kSizeClasses_default_12[i].size ∧
      (∀ (j : Nat) (hj : j < i), kSizeClasses_default_12[j].size < 100) ∧
      usableSize kSizeClasses_default_12 i = some kSizeClasses_default_12[i].size ∧
      (∀ (k : Nat) (hk : k < kSizeClasses_default_12.length),
        ¬ (100 ≤ kSizeClasses_default_12[k].size ∧
          kSizeClasses_default_12[k].size < kSizeClasses_default_12[i].size)) ∧
      (∀ (k : Nat) (hk : k < kSizeClasses_default_12.length),
        kSizeClasses_default_12[k].size = 100 → k = i) :=
  ⟨rfl, rfl, classFor_smallest_fit false 12 false kSizeClasses_default_12 8192 rfl rfl 100
    (by decide) (by decide)⟩

/-- C5: for the 8 KiB page tables (page shift 13, `kMaxSize` 262144, both alignment
branches): `classFor(1)` and `classFor(8)` are the class of size 8, `classFor(9)` is the
class of size 16, `classFor(262144)` is the last class and its `pagesPerSpan` is 32, and
`classFor(262145)` yields no class, because no entry has size at least 262145. -/
theorem classFor_scenario_8KiB (alignedNew : Bool) (fourM : Bool)
    (table : List SizeClassInfo) (hsel : kSizeClasses alignedNew 13 fourM = .ok table) :
    kMaxSize alignedNew 13 fourM = .ok 262144 ∧
    (classFor table 1).bind (usableSize table) = some 8 ∧
    (classFor table 8).bind (usableSize table) = some 8 ∧
    (classFor table 9).bind (usableSize table) = some 16 ∧
    classFor table 262144 = some (table.length - 1) ∧
    (classFor table 262144).bind (fun i => table[i]?.map (·.pagesPerSpan)) = some 32 ∧
    classFor table 262145 = none ∧
    (∀ e ∈ table, ¬ 262145 ≤ e.size) := by
  have hP := forall_variants
    (P := fun a s f t => s = 13 →
      ((kMaxSize a s f).toOption = some 262144 ∧
      (classFor t 1).bind (usableSize t) = some 8 ∧
      (classFor t 8).bind (usableSize t) = some 8 ∧
      (classFor t 9).bind (usableSize t) = some 16 ∧
      classFor t 262144 = some (t.length - 1) ∧
      (classFor t 262144).bind (fun i => t[i]?.map (·.pagesPerSpan)) = some 32 ∧
      classFor t 262145 = none ∧
      (∀ e ∈ t, ¬ 262145 ≤ e.size)))
    (by decide) hsel rfl
  refine ⟨?_, hP.2⟩
  cases hk : kMaxSize alignedNew 13 fourM with
  | error e => simp [hk, Except.toOption] at hP
  | ok m =>
    have := hP.1
    simp only [hk, Except.toOption, Option.some.injEq] at this
    rw [this]

/-- Witness for C5: the default-alignment 8 KiB table. -/
theorem classFor_scenario_8KiB_witness :
    kSizeClasses false 13 false = .ok kSizeClasses_default_13 ∧
    (kMaxSize false 13 false = .ok 262144 ∧
    (classFor kSizeClasses_default_13 1).bind (usableSize kSizeClasses_default_13) = some 8 ∧
    (classFor kSizeClasses_default_13 8).bind (usableSize kSizeClasses_default_13) = some 8 ∧
    (classFor kSizeClasses_default_13 9).bind (usableSize kSizeClasses_default_13) = some 16 ∧
    classFor kSizeClasses_default_13 262144 = some (kSizeClasses_default_13.length - 1) ∧
    (classFor kSizeClasses_default_13 262144).bind
      (fun i => kSizeClasses_default_13[i]?.map (·.pagesPerSpan)) = some 32 ∧
    classFor kSizeClasses_default_13 262145 = none ∧
    (∀ e ∈ kSizeClasses_default_13, ¬ 262145 ≤ e.size)) :=
  ⟨rfl, classFor_scenario_8KiB false false kSizeClasses_default_13 rfl⟩

/-- C6: for the 4 KiB page tables (page shift 12, `kMaxSize` 8192, both alignment
branches), the last class has `size == 8192` and `pagesPerSpan == 4`. -/
theorem last_class_4KiB (alignedNew : Bool) (fourM : Bool)
    (table : List SizeClassInfo) (hsel : kSizeClasses alignedNew 12 fourM = .ok table) :
    kMaxSize alignedNew 12 fourM = .ok 8192 ∧
    ∃ last, table.getLast? = some last ∧ last.size = 8192 ∧ last.pagesPerSpan = 4 := by
  have hP := forall_variants
    (P := fun a s f t => s = 12 →
      ((kMaxSize a s f).toOption = some 8192 ∧
       t.getLast?.map (fun e => (e.size, e.pagesPerSpan)) = some (8192, 4)))
    (by decide) hsel rfl
  constructor
  · cases hk : kMaxSize alignedNew 12 fourM with
    | error e => simp [hk, Except.toOption] at hP
    | ok m =>
      have := hP.1
      simp only [hk, Except.toOption, Option.some.injEq] at this
      rw [this]
  · cases hl : table.getLast? with
    | none => simp [hl] at hP
    | some last =>
      have := hP.2
      simp only [hl, Option.map_some', Option.some.injEq, Prod.mk.injEq] at this
      exact ⟨last, rfl, this.1, this.2⟩

/-- Witness for C6: the aligned-new 4 KiB table. -/
theorem last_class_4KiB_witness :
    kSizeClasses true 12 false = .ok kSizeClasses_aligned_12 ∧
    (kMaxSize true 12 false = .ok 8192 ∧
    ∃ last, kSizeClasses_aligned_12.getLast? = some last ∧ last.size = 8192 ∧
      last.pagesPerSpan = 4) :=
  ⟨rfl, last_class_4KiB true false kSizeClasses_aligned_12 rfl⟩

/-- C7, as stated, fails: entry 0 of the aligned-new 8 KiB table is the sentinel row
`{0, 0, 0}`, whose batch size 0 lies outside `[2, 32]`. -/
theorem batchSize_bounds_fail_at_sentinel :
    kSizeClasses true 13 false = .ok kSizeClasses_aligned_13 ∧
    kSizeClasses_aligned_13[0]? = some (SizeClassInfo.mk 0 0 0) ∧
    ¬ (∀ (i : Nat) (hN : i < kSizeClasses_aligned_13.length),
        2 ≤ kSizeClasses_aligned_13[i].batchSize ∧
          kSizeClasses_aligned_13[i].batchSize ≤ 32) :=
  ⟨rfl, rfl, fun h => absurd (h 0 (by decide)).1 (by decide)⟩

/-- C7 (amended): in every table variant, every entry `i` other than the sentinel (for all
`i` in `[1, N)`) has `2 ≤ table[i].batchSize ≤ 32`. -/
theorem kSizeClasses_batchSize_bounds (alignedNew : Bool) (shift : Nat) (fourM : Bool)
    (table : List SizeClassInfo) (hsel : kSizeClasses alignedNew shift fourM = .ok table)
    (i : Nat) (h1 : 1 ≤ i) (hN : i < table.length) :
    2 ≤ table[i].batchSize ∧ table[i].batchSize ≤ 32 := by
  have hall : ∀ e ∈ table.tail, 2 ≤ e.batchSize ∧ e.batchSize ≤ 32 :=
    forall_variants (P := fun _ _ _ t => ∀ e ∈ t.tail, 2 ≤ e.batchSize ∧ e.batchSize ≤ 32)
      (by decide) hsel
  exact hall _ (getElem_mem_tail table i h1 hN)

/-- Witness for C7 (amended): the 32 KiB default-alignment table at index 50. -/
theorem kSizeClasses_batchSize_bounds_witness :
    kSizeClasses false 15 false = .ok kSizeClasses_default_15 ∧
    (2 ≤ (kSizeClasses_default_15[50]).batchSize ∧
      (kSizeClasses_default_15[50]).batchSize ≤ 32) :=
  ⟨rfl, kSizeClasses_batchSize_bounds false 15 false kSizeClasses_default_15 rfl 50
    (by decide) (by decide)⟩

/-- C8, as stated, fails: the last class of the aligned-new 8 KiB table is
`{262144, 32, 2}`, and a span of 32 pages of 8192 bytes holds exactly one such object. -/
theorem objectsPerSpan_ge_two_fails :
    kSizeClasses true 13 false = .ok kSizeClasses_aligned_13 ∧
    kSizeClasses_aligned_13[85]? = some (SizeClassInfo.mk 262144 32 2) ∧
    objectsPerSpan kSizeClasses_aligned_13 (pageSize 13) 85 = some 1 ∧
    ¬ (2 ≤ (SizeClassInfo.mk 262144 32 2).objectsPerSpan (pageSize 13)) :=
  ⟨rfl, rfl, by decide, by decide⟩

/-- C8 (amended): in every table variant, every class with `size > 0` satisfies
`objectsPerSpan ≥ 1`, where `objectsPerSpan = floor(pagesPerSpan * pageSize / size)` and
`pageSize = 2^TCMALLOC_PAGE_SHIFT`; in the tables for page shift 12 every class with
`size > 0` satisfies `objectsPerSpan ≥ 2`. -/
theorem kSizeClasses_objectsPerSpan_pos (alignedNew : Bool) (shift : Nat) (fourM : Bool)
    (table : List SizeClassInfo) (hsel : kSizeClasses alignedNew shift fourM = .ok table)
    (i : Nat) (hN : i < table.length) (hsize : 0 < table[i].size) :
    objectsPerSpan table (pageSize shift) i
        = some (table[i].pagesPerSpan * pageSize shift / table[i].size) ∧
      1 ≤ table[i].pagesPerSpan * pageSize shift / table[i].size ∧
      (shift = 12 → 2 ≤ table[i].pagesPerSpan * pageSize shift / table[i].size) := by
  have hall : ∀ e ∈ table, 0 < e.size →
      (1 ≤ e.pagesPerSpan * pageSize shift / e.size ∧
        (shift = 12 → 2 ≤ e.pagesPerSpan * pageSize shift / e.size)) :=
    forall_variants (P := fun _ s _ t => ∀ e ∈ t, 0 < e.size →
      (1 ≤ e.pagesPerSpan * pageSize s / e.size ∧
        (s = 12 → 2 ≤ e.pagesPerSpan * pageSize s / e.size)))
      (by decide) hsel
  refine ⟨?_, hall _ (List.getElem_mem _) hsize⟩
  simp [objectsPerSpan, SizeClassInfo.objectsPerSpan, List.getElem?_eq_getElem hN]

/-- Witness for C8 (amended): the largest class of the 4 KiB aligned-new table. -/
theorem kSizeClasses_objectsPerSpan_pos_witness :
    kSizeClasses true 12 false = .ok kSizeClasses_aligned_12 ∧
    0 < (kSizeClasses_aligned_12[45]).size ∧
    (objectsPerSpan kSizeClasses_aligned_12 (pageSize 12) 45
        = some ((kSizeClasses_aligned_12[45]).pagesPerSpan * pageSize 12
            / (kSizeClasses_aligned_12[45]).size) ∧
      1 ≤ (kSizeClasses_aligned_12[45]).pagesPerSpan * pageSize 12
            / (kSizeClasses_aligned_12[45]).size ∧
      ((12 : Nat) = 12 → 2 ≤ (kSizeClasses_aligned_12[45]).pagesPerSpan * pageSize 12
            / (kSizeClasses_aligned_12[45]).size)) :=
  ⟨rfl, by decide, kSizeClasses_objectsPerSpan_pos true 12 false kSizeClasses_aligned_12 rfl 45
    (by decide) (by decide)⟩

/-- C9: in every table variant, entry 0 is the sentinel `{0, 0, 0}` and it is the only entry
with size 0: every entry with index at least 1 has size at least 8, and the entry at index 1
has size exactly 8. -/
theorem kSizeClasses_sentinel (alignedNew : Bool) (shift : Nat) (fourM : Bool)
    (table : List SizeClassInfo) (hsel : kSizeClasses alignedNew shift fourM = .ok table) :
    table[0]? = some (SizeClassInfo.mk 0 0 0) ∧
    (∀ (i : Nat) (hN : i < table.length), table[i].size = 0 → i = 0) ∧
    (∀ (i : Nat) (hN : i < table.length), 1 ≤ i → 8 ≤ table[i].size) ∧
    table[1]?.map (·.size) = some 8 := by
  have hP := forall_variants
    (P := fun _ _ _ t => t[0]? = some (SizeClassInfo.mk 0 0 0) ∧
      (∀ e ∈ t.tail, 8 ≤ e.size) ∧ t[1]?.map (·.size) = some 8)
    (by decide) hsel
  obtain ⟨h0, htail, hone⟩ := hP
  have hge : ∀ (i : Nat) (hN : i < table.length), 1 ≤ i → 8 ≤ table[i].size :=
    fun i hN h1 => htail _ (getElem_mem_tail table i h1 hN)
  refine ⟨h0, ?_, hge, hone⟩
  intro i hN hz
  by_contra hne
  have := hge i hN (by omega)
  omega

/-- Witness for C9: the 256 KiB default-alignment table. -/
theorem kSizeClasses_sentinel_witness :
    kSizeClasses false 18 false = .ok (kSizeClasses_default_18 false) ∧
    ((kSizeClasses_default_18 false)[0]? = some (SizeClassInfo.mk 0 0 0) ∧
    (∀ (i : Nat) (hN : i < (kSizeClasses_default_18 false).length),
      (kSizeClasses_default_18 false)[i].size = 0 → i = 0) ∧
    (∀ (i : Nat) (hN : i < (kSizeClasses_default_18 false).length),
      1 ≤ i → 8 ≤ (kSizeClasses_default_18 false)[i].size) ∧
    (kSizeClasses_default_18 false)[1]?.map (·.size) = some 8) :=
  ⟨rfl, kSizeClasses_sentinel false 18 false (kSizeClasses_default_18 false) rfl⟩

/-- C10: in every table variant, every class with index at least 1 has a positive page count
capped at 32: `1 ≤ table[i].pagesPerSpan ≤ 32`. -/
theorem kSizeClasses_pagesPerSpan_bounds (alignedNew : Bool) (shift : Nat) (fourM : Bool)
    (table : List SizeClassInfo) (hsel : kSizeClasses alignedNew shift fourM = .ok table)
    (i : Nat) (h1 : 1 ≤ i) (hN : i < table.length) :
    1 ≤ table[i].pagesPerSpan ∧ table[i].pagesPerSpan ≤ 32 := by
  have hall : ∀ e ∈ table.tail, 1 ≤ e.pagesPerSpan ∧ e.pagesPerSpan ≤ 32 :=
    forall_variants
      (P := fun _ _ _ t => ∀ e ∈ t.tail, 1 ≤ e.pagesPerSpan ∧ e.pagesPerSpan ≤ 32)
      (by decide) hsel
  exact hall _ (getElem_mem_tail table i h1 hN)

/-- Witness for C10: the largest class of the 8 KiB default-alignment table, which uses
the full 32 pages. -/
theorem kSizeClasses_pagesPerSpan_bounds_witness :
    kSizeClasses false 13 false = .ok kSizeClasses_default_13 ∧
    (1 ≤ (kSizeClasses_default_13[85]).pagesPerSpan ∧
      (kSizeClasses_default_13[85]).pagesPerSpan ≤ 32) :=
  ⟨rfl, kSizeClasses_pagesPerSpan_bounds false 13 false kSizeClasses_default_13 rfl 85
    (by decide) (by decide)⟩


/-! ### Requests beyond the largest class, and monotonicity of `classFor` -/

/-- No row of a selected table is larger than the `kMaxSize` its branch asserts. -/
theorem kSizeClasses_size_le_kMaxSize {a : Bool} {s : Nat} {f : Bool}
    {t : List SizeClassInfo} {m : Nat}
    (h : kSizeClasses a s f = .ok t) (hm : kMaxSize a s f = .ok m) :
    ∀ e ∈ t, e.size ≤ m := by
  have hP := forall_variants
    (P := fun a s f t => ∀ e ∈ t, e.size ≤ (kMaxSize a s f).toOption.getD 0) (by decide) h
  intro e he
  have := hP e he
  simpa [hm, Except.toOption] using this

/-- Every request up to `kMaxSize` finds a class. -/
theorem classFor_isSome_of_le_kMaxSize {a : Bool} {s : Nat} {f : Bool}
    {t : List SizeClassInfo} {m : Nat}
    (h : kSizeClasses a s f = .ok t) (hm : kMaxSize a s f = .ok m)
    (sz : Nat) (hle : sz ≤ m) : ∃ i, classFor t sz = some i := by
  obtain ⟨last, hlast, hk, -⟩ := getLast_size_eq_kMaxSize h
  have hlm : last.size = m := by
    rw [hk] at hm
    exact Except.ok.inj hm
  cases hc : classFor t sz with
  | none =>
    have := (classFor_eq_none_iff t sz).mp hc last (List.mem_of_getLast?_eq_some hlast)
    omega
  | some i => exact ⟨i, rfl⟩

/-- On any list, the index found by `classFor` does not decrease when the request grows. -/
theorem classFor_mono_of_eq_some (l : List SizeClassInfo) (s1 s2 i1 i2 : Nat)
    (hs : s1 ≤ s2) (h1 : classFor l s1 = some i1) (h2 : classFor l s2 = some i2) :
    i1 ≤ i2 := by
  obtain ⟨_, _, hmin1⟩ := classFor_eq_some l s1 i1 h1
  obtain ⟨_, hfit2, _⟩ := classFor_eq_some l s2 i2 h2
  by_contra hlt
  have := hmin1 i2 (by omega)
  omega

/-- C11: for every table variant and every requested size `s > kMaxSize`, no entry of the
table has size at least `s`, so `classFor(s)` yields no class. -/
theorem classFor_none_above_kMaxSize (alignedNew : Bool) (shift : Nat) (fourM : Bool)
    (table : List SizeClassInfo) (maxSize : Nat)
    (hsel : kSizeClasses alignedNew shift fourM = .ok table)
    (hmax : kMaxSize alignedNew shift fourM = .ok maxSize)
    (s : Nat) (hgt : maxSize < s) :
    (∀ (i : Nat) (hN : i < table.length), ¬ s ≤ table[i].size) ∧ classFor table s = none := by
  have hall := kSizeClasses_size_le_kMaxSize hsel hmax
  constructor
  · intro i hN hge
    have := hall _ (List.getElem_mem hN)
    omega
  · rw [classFor_eq_none_iff]
    intro e he
    have := hall e he
    omega

/-- Witness for C11: a request of 8193 bytes against the 4 KiB aligned-new table. -/
theorem classFor_none_above_kMaxSize_witness :
    kSizeClasses true 12 false = .ok kSizeClasses_aligned_12 ∧
    kMaxSize true 12 false = .ok 8192 ∧
    ((∀ (i : Nat) (hN : i < kSizeClasses_aligned_12.length),
        ¬ 8193 ≤ kSizeClasses_aligned_12[i].size) ∧
      classFor kSizeClasses_aligned_12 8193 = none) :=
  ⟨rfl, rfl, classFor_none_above_kMaxSize true 12 false kSizeClasses_aligned_12 8192 rfl rfl
    8193 (by decide)⟩

/-- C12: for every table variant, `classFor` is monotonic on the sizes it serves: for all
`size1`, `size2` with `0 < size1 ≤ size2 ≤ kMaxSize`, both lookups return a class and
`classFor(size1) ≤ classFor(size2)`. -/
theorem classFor_monotonic (alignedNew : Bool) (shift : Nat) (fourM : Bool)
    (table : List SizeClassInfo) (maxSize : Nat)
    (hsel : kSizeClasses alignedNew shift fourM = .ok table)
    (hmax : kMaxSize alignedNew shift fourM = .ok maxSize)
    (size1 size2 : Nat) (_hpos : 0 < size1) (h12 : size1 ≤ size2) (hle : size2 ≤ maxSize) :
    ∃ i1 i2, classFor table size1 = some i1 ∧ classFor table size2 = some i2 ∧ i1 ≤ i2 := by
  obtain ⟨i1, h1⟩ := classFor_isSome_of_le_kMaxSize hsel hmax size1 (by omega)
  obtain ⟨i2, h2⟩ := classFor_isSome_of_le_kMaxSize hsel hmax size2 hle
  exact ⟨i1, i2, h1, h2, classFor_mono_of_eq_some table size1 size2 i1 i2 h12 h1 h2⟩

/-- Witness for C12: requests of 100 and 5000 bytes against the 32 KiB default table. -/
theorem classFor_monotonic_witness :
    kSizeClasses false 15 false = .ok kSizeClasses_default_15 ∧
    kMaxSize false 15 false = .ok 262144 ∧
    ∃ i1 i2, classFor kSizeClasses_default_15 100 = some i1 ∧
      classFor kSizeClasses_default_15 5000 = some i2 ∧ i1 ≤ i2 :=
  ⟨rfl, rfl, classFor_monotonic false 15 false kSizeClasses_default_15 262144 rfl rfl
    100 5000 (by decide) (by decide) (by decide)⟩

/-! ### The flag `TCMALLOC_4M_MAX_SIZE` and the selection of a variant -/

/-- C13, as stated, fails: the aligned-new table for page shift 18 built without
`TCMALLOC_4M_MAX_SIZE` has the class `{8704, 1, 7}`, and the table built with the flag has no
class of size 8704 (the row stands under `#ifndef TCMALLOC_4M_MAX_SIZE`). -/
theorem flag_4M_drops_class_8704 :
    kSizeClasses true 18 false = .ok (kSizeClasses_aligned_18 false) ∧
    kSizeClasses true 18 true = .ok (kSizeClasses_aligned_18 true) ∧
    SizeClassInfo.mk 8704 1 7 ∈ kSizeClasses_aligned_18 false ∧
    SizeClassInfo.mk 8704 1 7 ∉ kSizeClasses_aligned_18 true ∧
    (∀ e ∈ kSizeClasses_aligned_18 true, e.size ≠ 8704) :=
  ⟨rfl, rfl, by decide, by decide, by decide⟩

/-- C13 (amended): for the 256 KiB page tables (page shift 18, either alignment branch),
enabling `TCMALLOC_4M_MAX_SIZE` replaces four classes by four very large ones. Every class of
the table built without the flag is still a class of the table built with the flag, except
the four classes under `#ifndef TCMALLOC_4M_MAX_SIZE` (sizes 8704, 9600, 10880, 11904 in the
aligned-new branch; 8704, 9344, 9984, 10880 in the default-alignment branch), whose sizes the
table with the flag does not contain; and the table with the flag additionally contains the
classes 512 KiB, 1 MiB, 2 MiB and 4 MiB (with 2, 4, 8 and 16 pages per span, batch size 2),
none of which is in the table without the flag. -/
theorem flag_4M_replaces_classes (alignedNew : Bool) (without withFlag : List SizeClassInfo)
    (hwithout : kSizeClasses alignedNew 18 false = .ok without)
    (hwith : kSizeClasses alignedNew 18 true = .ok withFlag) :
    (∀ e ∈ without, e ∈ withFlag ∨
      e.size ∈ (if alignedNew then [8704, 9600, 10880, 11904]
        else [8704, 9344, 9984, 10880])) ∧
    (∀ n ∈ (if alignedNew then [8704, 9600, 10880, 11904] else [8704, 9344, 9984, 10880]),
      (∃ e ∈ without, e.size = n) ∧ ∀ e ∈ withFlag, e.size ≠ n) ∧
    (∀ e ∈ [SizeClassInfo.mk (512 * 1024) 2 2, SizeClassInfo.mk (1024 * 1024) 4 2,
        SizeClassInfo.mk (2 * 1024 * 1024) 8 2, SizeClassInfo.mk (4 * 1024 * 1024) 16 2],
      e ∈ withFlag ∧ e ∉ without) := by
  have h1 := tableOf_eq_of_ok hwithout
  have h2 := tableOf_eq_of_ok hwith
  subst h1 h2
  cases alignedNew <;> decide

/-- Witness for C13 (amended): the default-alignment branch. -/
theorem flag_4M_replaces_classes_witness :
    kSizeClasses false 18 false = .ok (kSizeClasses_default_18 false) ∧
    kSizeClasses false 18 true = .ok (kSizeClasses_default_18 true) ∧
    ((∀ e ∈ kSizeClasses_default_18 false, e ∈ kSizeClasses_default_18 true ∨
      e.size ∈ (if false = true then [8704, 9600, 10880, 11904]
        else [8704, 9344, 9984, 10880])) ∧
    (∀ n ∈ (if false = true then [8704, 9600, 10880, 11904]
        else [8704, 9344, 9984, 10880]),
      (∃ e ∈ kSizeClasses_default_18 false, e.size = n) ∧
        ∀ e ∈ kSizeClasses_default_18 true, e.size ≠ n) ∧
    (∀ e ∈ [SizeClassInfo.mk (512 * 1024) 2 2, SizeClassInfo.mk (1024 * 1024) 4 2,
        SizeClassInfo.mk (2 * 1024 * 1024) 8 2, SizeClassInfo.mk (4 * 1024 * 1024) 16 2],
      e ∈ kSizeClasses_default_18 true ∧ e ∉ kSizeClasses_default_18 false)) :=
  ⟨rfl, rfl, flag_4M_replaces_classes false (kSizeClasses_default_18 false)
    (kSizeClasses_default_18 true) rfl rfl⟩

/-- C14: variant selection, as a function of the alignment branch, the page shift and the
4M flag, yields exactly one table when the page shift is 12, 13, 15 or 18, namely the table
written under that `#if`/`#elif` of the branch, and fails with the build error
"Unsupported TCMALLOC_PAGE_SHIFT value!" for every other page shift, in both alignment
branches. The page shift is a value of the preprocessor's 64-bit arithmetic, hence below
`2^64`. -/
theorem kSizeClasses_selection (alignedNew : Bool) (shift : Nat) (fourM : Bool)
    (_hword : shift < 2 ^ 64) :
    ((shift = 12 ∨ shift = 13 ∨ shift = 15 ∨ shift = 18) ∧
      (∃! table, kSizeClasses alignedNew shift fourM = .ok table) ∧
      (shift = 12 → kSizeClasses alignedNew shift fourM
        = .ok (if alignedNew then kSizeClasses_aligned_12 else kSizeClasses_default_12)) ∧
      (shift = 13 → kSizeClasses alignedNew shift fourM
        = .ok (if alignedNew then kSizeClasses_aligned_13 else kSizeClasses_default_13)) ∧
      (shift = 15 → kSizeClasses alignedNew shift fourM
        = .ok (if alignedNew then kSizeClasses_aligned_15 else kSizeClasses_default_15)) ∧
      (shift = 18 → kSizeClasses alignedNew shift fourM
        = .ok (if alignedNew then kSizeClasses_aligned_18 fourM
          else kSizeClasses_default_18 fourM))) ∨
    (¬ (shift = 12 ∨ shift = 13 ∨ shift = 15 ∨ shift = 18) ∧
      kSizeClasses alignedNew shift fourM
        = .error "Unsupported TCMALLOC_PAGE_SHIFT value!") := by
  by_cases h : shift = 12 ∨ shift = 13 ∨ shift = 15 ∨ shift = 18
  · refine Or.inl ⟨h, ?_, ?_, ?_, ?_, ?_⟩
    · have hex : ∃ table, kSizeClasses alignedNew shift fourM = .ok table := by
        rcases h with rfl | rfl | rfl | rfl <;> cases alignedNew <;> simp [kSizeClasses]
      obtain ⟨table, ht⟩ := hex
      refine ⟨table, ht, ?_⟩
      intro other hother
      rw [ht] at hother
      exact (Except.ok.inj hother).symm
    · rintro rfl
      cases alignedNew <;> simp [kSizeClasses]
    · rintro rfl
      cases alignedNew <;> simp [kSizeClasses]
    · rintro rfl
      cases alignedNew <;> simp [kSizeClasses]
    · rintro rfl
      cases alignedNew <;> simp [kSizeClasses]
  · refine Or.inr ⟨h, ?_⟩
    simp only [not_or] at h
    obtain ⟨h12, h13, h15, h18⟩ := h
    cases alignedNew <;> simp [kSizeClasses, h12, h13, h15, h18]

/-- Witness for C14: page shift 14, which no branch of the file supports. -/
theorem kSizeClasses_selection_witness :
    (14 : Nat) < 2 ^ 64 ∧
    ((((14 : Nat) = 12 ∨ (14 : Nat) = 13 ∨ (14 : Nat) = 15 ∨ (14 : Nat) = 18) ∧
      (∃! table, kSizeClasses false 14 true = .ok table) ∧
      ((14 : Nat) = 12 → kSizeClasses false 14 true
        = .ok (if false = true then kSizeClasses_aligned_12 else kSizeClasses_default_12)) ∧
      ((14 : Nat) = 13 → kSizeClasses false 14 true
        = .ok (if false = true then kSizeClasses_aligned_13 else kSizeClasses_default_13)) ∧
      ((14 : Nat) = 15 → kSizeClasses false 14 true
        = .ok (if false = true then kSizeClasses_aligned_15 else kSizeClasses_default_15)) ∧
      ((14 : Nat) = 18 → kSizeClasses false 14 true
        = .ok (if false = true then kSizeClasses_aligned_18 true
          else kSizeClasses_default_18 true))) ∨
    (¬ ((14 : Nat) = 12 ∨ (14 : Nat) = 13 ∨ (14 : Nat) = 15 ∨ (14 : Nat) = 18) ∧
      kSizeClasses false 14 true = .error "Unsupported TCMALLOC_PAGE_SHIFT value!")) :=
  ⟨by decide, kSizeClasses_selection false 14 true (by decide)⟩

/-! ### Span geometry: objects per span and fixed overhead -/

/-- C15: in every table variant and for every entry `i`,
`objectsPerSpan(i) * table[i].size ≤ table[i].pagesPerSpan * pageSize`, where
`objectsPerSpan(i) = floor(table[i].pagesPerSpan * pageSize / table[i].size)`, taken as 0
for the size-0 sentinel: no span over-commits. -/
theorem objectsPerSpan_no_overcommit (alignedNew : Bool) (shift : Nat) (fourM : Bool)
    (table : List SizeClassInfo) (_hsel : kSizeClasses alignedNew shift fourM = .ok table)
    (i : Nat) (hN : i < table.length) :
    ∃ n, objectsPerSpan table (pageSize shift) i = some n ∧
      n = table[i].pagesPerSpan * pageSize shift / table[i].size ∧
      (table[i].size = 0 → n = 0) ∧
      n * table[i].size ≤ table[i].pagesPerSpan * pageSize shift := by
  refine ⟨table[i].pagesPerSpan * pageSize shift / table[i].size, ?_, rfl, ?_, ?_⟩
  · simp [objectsPerSpan, SizeClassInfo.objectsPerSpan, List.getElem?_eq_getElem hN]
  · intro h0
    rw [h0, Nat.div_zero]
  · exact Nat.div_mul_le_self _ _

/-- Witness for C15: the class `{4736, 3, 13}` of the 8 KiB aligned-new table. -/
theorem objectsPerSpan_no_overcommit_witness :
    kSizeClasses true 13 false = .ok kSizeClasses_aligned_13 ∧
    ∃ n, objectsPerSpan kSizeClasses_aligned_13 (pageSize 13) 55 = some n ∧
      n = (kSizeClasses_aligned_13[55]).pagesPerSpan * pageSize 13
            / (kSizeClasses_aligned_13[55]).size ∧
      ((kSizeClasses_aligned_13[55]).size = 0 → n = 0) ∧
      n * (kSizeClasses_aligned_13[55]).size
        ≤ (kSizeClasses_aligned_13[55]).pagesPerSpan * pageSize 13 :=
  ⟨rfl, objectsPerSpan_no_overcommit true 13 false kSizeClasses_aligned_13 rfl 55 (by decide)⟩

/-- The fixed overhead is below `1/10` as soon as ten times the wasted bytes are fewer than
the bytes handed out. -/
theorem fixedOverhead_lt_tenth_of_nat (e : SizeClassInfo) (ps : Nat)
    (h : 10 * (e.leftover ps + 48) < e.pagesPerSpan * ps - e.leftover ps) :
    e.fixedOverhead ps < 1 / 10 := by
  have hb : (0 : ℚ) < ((e.pagesPerSpan * ps - e.leftover ps : Nat) : ℚ) := by
    have : 0 < e.pagesPerSpan * ps - e.leftover ps := by omega
    exact_mod_cast this
  have hq : (10 : ℚ) * ((e.leftover ps + 48 : Nat) : ℚ)
      < ((e.pagesPerSpan * ps - e.leftover ps : Nat) : ℚ) := by
    exact_mod_cast h
  unfold SizeClassInfo.fixedOverhead
  rw [div_lt_iff₀ hb]
  linarith

/-- C16: in every table variant, every class with `size > 0` keeps its per-span fixed
overhead, as defined in the file's header comment, under 10%: with
`span = pagesPerSpan * 2^TCMALLOC_PAGE_SHIFT`, `leftover = span mod size` and 48 bytes of
per-span metadata, `(leftover + 48) / (span - leftover) < 1/10` in exact rational
arithmetic. -/
theorem fixedOverhead_lt_tenth (alignedNew : Bool) (shift : Nat) (fourM : Bool)
    (table : List SizeClassInfo) (hsel : kSizeClasses alignedNew shift fourM = .ok table)
    (i : Nat) (hN : i < table.length) (hpos : 0 < table[i].size) :
    table[i].fixedOverhead (pageSize shift) < 1 / 10 ∧
    table[i].fixedOverhead (pageSize shift)
      = (((table[i].pagesPerSpan * 2 ^ shift) % table[i].size + 48 : Nat) : ℚ)
        / ((table[i].pagesPerSpan * 2 ^ shift
            - (table[i].pagesPerSpan * 2 ^ shift) % table[i].size : Nat) : ℚ) := by
  have hall : ∀ e ∈ table, 0 < e.size →
      10 * (e.leftover (pageSize shift) + 48)
        < e.pagesPerSpan * pageSize shift - e.leftover (pageSize shift) :=
    forall_variants (P := fun _ s _ t => ∀ e ∈ t, 0 < e.size →
      10 * (e.leftover (pageSize s) + 48)
        < e.pagesPerSpan * pageSize s - e.leftover (pageSize s))
      (by decide) hsel
  exact ⟨fixedOverhead_lt_tenth_of_nat _ _ (hall _ (List.getElem_mem hN) hpos), rfl⟩

/-- Witness for C16: the class `{2816, 3, 23}` of the 8 KiB default-alignment table, whose
overhead (annotated 9.30%) is the largest of all tables. -/
theorem fixedOverhead_lt_tenth_witness :
    kSizeClasses false 13 false = .ok kSizeClasses_default_13 ∧
    0 < (kSizeClasses_default_13[45]).size ∧
    ((kSizeClasses_default_13[45]).fixedOverhead (pageSize 13) < 1 / 10 ∧
    (kSizeClasses_default_13[45]).fixedOverhead (pageSize 13)
      = ((((kSizeClasses_default_13[45]).pagesPerSpan * 2 ^ 13)
            % (kSizeClasses_default_13[45]).size + 48 : Nat) : ℚ)
        / (((kSizeClasses_default_13[45]).pagesPerSpan * 2 ^ 13
            - ((kSizeClasses_default_13[45]).pagesPerSpan * 2 ^ 13)
                % (kSizeClasses_default_13[45]).size : Nat) : ℚ)) :=
  ⟨rfl, by decide, fixedOverhead_lt_tenth false 13 false kSizeClasses_default_13 rfl 45
    (by decide) (by decide)⟩

/-- The annotated rows are the rows of the selected table, in the same order. -/
theorem kSizeClassesFixed_rows {a : Bool} {s : Nat} {f : Bool} {t : List SizeClassInfo}
    (h : kSizeClasses a s f = .ok t) :
    ∃ rows, kSizeClassesFixed a s f = .ok rows ∧ rows.map Prod.fst = t := by
  have ht := tableOf_eq_of_ok h
  subst ht
  rcases kSizeClasses_ok_shift h with rfl | rfl | rfl | rfl <;> cases a <;> cases f <;>
    exact ⟨_, rfl, by decide⟩

/-- The overhead of a 96-byte class on one 8 KiB page, as computed in the header comment. -/
theorem fixedOverhead_96 :
    (SizeClassInfo.mk 96 1 32).fixedOverhead (pageSize 13) = (32 + 48) / (8192 - 32) := by
  have h1 : (SizeClassInfo.mk 96 1 32).leftover (pageSize 13) = 32 := by decide
  have h2 : (SizeClassInfo.mk 96 1 32).pagesPerSpan * pageSize 13 = 8192 := by decide
  unfold SizeClassInfo.fixedOverhead
  rw [h1, h2]
  norm_num

/-- C17: the header comment's worked example holds for the 8 KiB page table. The table
contains a class of size 96 with `pagesPerSpan` 1; a single 8192-byte page holds
`floor(8192/96) = 85` objects with `8192 - 85*96 = 32` bytes left over; and the fixed
overhead `(32 + 48) / (8192 - 32)` lies in `[0.975%, 0.985%)`, that is, rounds to the 0.98%
annotated on that row. -/
theorem header_example_96 (alignedNew : Bool) (fourM : Bool)
    (table : List SizeClassInfo) (hsel : kSizeClasses alignedNew 13 fourM = .ok table) :
    ∃ e ∈ table, e.size = 96 ∧ e.pagesPerSpan = 1 ∧
      pageSize 13 = 8192 ∧
      e.objectsPerSpan (pageSize 13) = 85 ∧ 8192 / 96 = 85 ∧
      e.leftover (pageSize 13) = 32 ∧ 8192 - 85 * 96 = 32 ∧
      e.fixedOverhead (pageSize 13) = (32 + 48) / (8192 - 32) ∧
      (975 : ℚ) / 100000 ≤ e.fixedOverhead (pageSize 13) ∧
      e.fixedOverhead (pageSize 13) < (985 : ℚ) / 100000 ∧
      ∃ rows, kSizeClassesFixed alignedNew 13 fourM = .ok rows ∧
        rows.map Prod.fst = table ∧ (e, some 98) ∈ rows := by
  have hmem : SizeClassInfo.mk 96 1 32 ∈ table :=
    forall_variants (P := fun _ s _ t => s = 13 → SizeClassInfo.mk 96 1 32 ∈ t)
      (by decide) hsel rfl
  refine ⟨SizeClassInfo.mk 96 1 32, hmem, rfl, rfl, by decide, by decide, by decide,
    by decide, by decide, fixedOverhead_96, ?_, ?_, ?_⟩
  · rw [fixedOverhead_96]
    norm_num
  · rw [fixedOverhead_96]
    norm_num
  · obtain ⟨rows, hrows, hfst⟩ := kSizeClassesFixed_rows hsel
    refine ⟨rows, hrows, hfst, ?_⟩
    cases alignedNew <;> cases fourM <;>
      · simp only [kSizeClassesFixed] at hrows
        cases hrows
        decide

/-- Witness for C17: the aligned-new 8 KiB table. -/
theorem header_example_96_witness :
    kSizeClasses true 13 false = .ok kSizeClasses_aligned_13 ∧
    ∃ e ∈ kSizeClasses_aligned_13, e.size = 96 ∧ e.pagesPerSpan = 1 ∧
      pageSize 13 = 8192 ∧
      e.objectsPerSpan (pageSize 13) = 85 ∧ 8192 / 96 = 85 ∧
      e.leftover (pageSize 13) = 32 ∧ 8192 - 85 * 96 = 32 ∧
      e.fixedOverhead (pageSize 13) = (32 + 48) / (8192 - 32) ∧
      (975 : ℚ) / 100000 ≤ e.fixedOverhead (pageSize 13) ∧
      e.fixedOverhead (pageSize 13) < (985 : ℚ) / 100000 ∧
      ∃ rows, kSizeClassesFixed true 13 false = .ok rows ∧
        rows.map Prod.fst = kSizeClasses_aligned_13 ∧ (e, some 98) ∈ rows :=
  ⟨rfl, header_example_96 true false kSizeClasses_aligned_13 rfl⟩

/-! ### Progression of sizes and batch sizes -/

theorem adjacentAll_getElem (r : Nat → Nat → Bool) :
    ∀ (l : List Nat), adjacentAll r l = true →
      ∀ (i : Nat) (h : i + 1 < l.length), r l[i] l[i + 1] = true
  | [], _, i, h => by simp at h
  | [_], _, i, h => by simp at h
  | a :: b :: rest, hl, i, h => by
    simp only [adjacentAll, Bool.and_eq_true] at hl
    cases i with
    | zero => simpa using hl.1
    | succ j =>
      have := adjacentAll_getElem r (b :: rest) hl.2 j (by simpa using h)
      simpa using this

/-- A list whose every element is at most its predecessor is non-increasing. -/
theorem adjacentAll_ge_le (l : List Nat)
    (hl : adjacentAll (fun a b => decide (b ≤ a)) l = true)
    (i j : Nat) (hij : i ≤ j) (hj : j < l.length) : l[j] ≤ l[i] := by
  induction j with
  | zero =>
    have : i = 0 := by omega
    subst this
    exact Nat.le_refl _
  | succ n ih =>
    by_cases hin : i = n + 1
    · subst hin
      exact Nat.le_refl _
    · have hstep := adjacentAll_getElem _ l hl n hj
      simp only [decide_eq_true_eq] at hstep
      exact Nat.le_trans hstep (ih (by omega) (by omega))

/-- C18: in every table variant, consecutive class sizes differ by a relative step of at
most 2x: for every index `i ≥ 2`, `table[i].size ≤ 2 * table[i-1].size`; consequently, for
every request `s` with `8 ≤ s ≤ kMaxSize`, the smallest class size `c ≥ s` satisfies
`c < 2 * s`. -/
theorem size_step_at_most_double (alignedNew : Bool) (shift : Nat) (fourM : Bool)
    (table : List SizeClassInfo) (maxSize : Nat)
    (hsel : kSizeClasses alignedNew shift fourM = .ok table)
    (hmax : kMaxSize alignedNew shift fourM = .ok maxSize) :
    (∀ (i : Nat) (_h2 : 2 ≤ i) (hN : i < table.length),
      table[i].size ≤ 2 * table[i - 1].size) ∧
    (∀ (s : Nat), 8 ≤ s → s ≤ maxSize →
      ∃ (k : Nat) (hk : k < table.length), s ≤ table[k].size ∧
        (∀ (j : Nat) (hj : j < k), table[j].size < s) ∧ table[k].size < 2 * s) := by
  have hc : checkVariants (fun _ _ _ t =>
      adjacentAll (fun a b => decide (a = 0 ∨ b ≤ 2 * a)) (t.map (·.size))) = true := by
    decide
  have hadj := checkVariants_sound hc hsel
  have hstep : ∀ (i : Nat) (_h2 : 2 ≤ i) (hN : i < table.length),
      table[i].size ≤ 2 * table[i - 1].size := by
    intro i h2 hN
    obtain ⟨j, rfl⟩ : ∃ j, i = j + 1 := ⟨i - 1, by omega⟩
    have h := adjacentAll_getElem _ _ hadj j (by simpa using hN)
    simp only [List.getElem_map, decide_eq_true_eq] at h
    have hpos := kSizeClasses_size_lt hsel 0 j (by omega) (by omega)
    rcases h with h0 | h
    · omega
    · simpa using h
  refine ⟨hstep, ?_⟩
  intro s h8 hle
  have hfacts := forall_variants
    (P := fun _ _ _ t => t[0]?.map (·.size) = some 0 ∧ t[1]?.map (·.size) = some 8)
    (by decide) hsel
  obtain ⟨k, hk⟩ := classFor_isSome_of_le_kMaxSize hsel hmax s hle
  obtain ⟨hlen, hfit, hmin⟩ := classFor_eq_some table s k hk
  refine ⟨k, hlen, hfit, hmin, ?_⟩
  rcases Nat.lt_or_ge k 2 with hsmall | hbig
  · have hk01 : k = 0 ∨ k = 1 := by omega
    rcases hk01 with rfl | rfl
    · have h0 := hfacts.1
      simp only [List.getElem?_eq_getElem hlen, Option.map_some', Option.some.injEq] at h0
      omega
    · have h1 := hfacts.2
      simp only [List.getElem?_eq_getElem hlen, Option.map_some', Option.some.injEq] at h1
      omega
  · have h1 := hstep k hbig hlen
    have h2 := hmin (k - 1) (by omega)
    omega

/-- Witness for C18: the 8 KiB default-alignment table. -/
theorem size_step_at_most_double_witness :
    kSizeClasses false 13 false = .ok kSizeClasses_default_13 ∧
    kMaxSize false 13 false = .ok 262144 ∧
    ((∀ (i : Nat) (_h2 : 2 ≤ i) (hN : i < kSizeClasses_default_13.length),
      kSizeClasses_default_13[i].size ≤ 2 * kSizeClasses_default_13[i - 1].size) ∧
    (∀ (s : Nat), 8 ≤ s → s ≤ 262144 →
      ∃ (k : Nat) (hk : k < kSizeClasses_default_13.length),
        s ≤ kSizeClasses_default_13[k].size ∧
        (∀ (j : Nat) (hj : j < k), kSizeClasses_default_13[j].size < s) ∧
        kSizeClasses_default_13[k].size < 2 * s)) :=
  ⟨rfl, rfl, size_step_at_most_double false 13 false kSizeClasses_default_13 262144 rfl rfl⟩

/-- C19: in every table variant, every class size is aligned to the platform minimum
alignment of 8 bytes: for every entry `i`, `table[i].size mod 8 == 0`. -/
theorem size_aligned_8 (alignedNew : Bool) (shift : Nat) (fourM : Bool)
    (table : List SizeClassInfo) (hsel : kSizeClasses alignedNew shift fourM = .ok table)
    (i : Nat) (hN : i < table.length) :
    table[i].size % 8 = 0 := by
  have hall : ∀ e ∈ table, e.size % 8 = 0 :=
    forall_variants (P := fun _ _ _ t => ∀ e ∈ t, e.size % 8 = 0) (by decide) hsel
  exact hall _ (List.getElem_mem hN)

/-- Witness for C19: the class of size 312 in the 4 KiB aligned-new table. -/
theorem size_aligned_8_witness :
    kSizeClasses true 12 false = .ok kSizeClasses_aligned_12 ∧
    (kSizeClasses_aligned_12[23]).size % 8 = 0 :=
  ⟨rfl, size_aligned_8 true 12 false kSizeClasses_aligned_12 rfl 23 (by decide)⟩

/-- C20: in every table variant, `batchSize` never increases as the object size grows: for
all indices `1 ≤ i < j < N`, `table[j].batchSize ≤ table[i].batchSize`. -/
theorem batchSize_nonincreasing (alignedNew : Bool) (shift : Nat) (fourM : Bool)
    (table : List SizeClassInfo) (hsel : kSizeClasses alignedNew shift fourM = .ok table)
    (i j : Nat) (h1 : 1 ≤ i) (hij : i < j) (hN : j < table.length) :
    table[j].batchSize ≤ table[i].batchSize := by
  have hc : checkVariants (fun _ _ _ t =>
      adjacentAll (fun a b => decide (b ≤ a)) (t.tail.map (·.batchSize))) = true := by
    decide
  have hadj := checkVariants_sound hc hsel
  cases table with
  | nil => simp at hN
  | cons x rest =>
    obtain ⟨i', rfl⟩ : ∃ i', i = i' + 1 := ⟨i - 1, by omega⟩
    obtain ⟨j', rfl⟩ : ∃ j', j = j' + 1 := ⟨j - 1, by omega⟩
    have hj' : j' < (rest.map (·.batchSize)).length := by simpa using hN
    have := adjacentAll_ge_le _ hadj i' j' (by omega) hj'
    simpa using this

/-- Witness for C20: the classes of sizes 2048 and 8192 in the 4 KiB default table. -/
theorem batchSize_nonincreasing_witness :
    kSizeClasses false 12 false = .ok kSizeClasses_default_12 ∧
    (kSizeClasses_default_12[45]).batchSize ≤ (kSizeClasses_default_12[36]).batchSize :=
  ⟨rfl, batchSize_nonincreasing false 12 false kSizeClasses_default_12 rfl 36 45
    (by decide) (by decide) (by decide)⟩


/-! ### How the page count and the batch size of a class are chosen -/

/-- A span wastes more than one eighth as soon as eight times the wasted bytes exceed the
bytes handed out. -/
theorem eighth_lt_fixedOverhead_of_nat (e : SizeClassInfo) (ps : Nat)
    (hpos : 0 < e.pagesPerSpan * ps - e.leftover ps)
    (h : e.pagesPerSpan * ps - e.leftover ps < 8 * (e.leftover ps + 48)) :
    1 / 8 < e.fixedOverhead ps := by
  have hb : (0 : ℚ) < ((e.pagesPerSpan * ps - e.leftover ps : Nat) : ℚ) := by
    exact_mod_cast hpos
  have hq : ((e.pagesPerSpan * ps - e.leftover ps : Nat) : ℚ)
      < (8 : ℚ) * ((e.leftover ps + 48 : Nat) : ℚ) := by
    exact_mod_cast h
  unfold SizeClassInfo.fixedOverhead
  rw [lt_div_iff₀ hb]
  linarith

/-- C21: in every table variant, `pagesPerSpan` is the smallest adequate page count: for
every class with `size > 0` and every `p'` with `1 ≤ p' < pagesPerSpan`, a span of `p'` pages
is inadequate, that is, either `floor(p' * pageSize / size) < max(1, floor(batchSize / 4))`,
or its fixed overhead
`((p'*pageSize mod size) + 48) / (p'*pageSize - (p'*pageSize mod size))` exceeds `1/8`. -/
theorem pagesPerSpan_smallest_adequate (alignedNew : Bool) (shift : Nat) (fourM : Bool)
    (table : List SizeClassInfo) (hsel : kSizeClasses alignedNew shift fourM = .ok table)
    (i : Nat) (hN : i < table.length) (hpos : 0 < table[i].size)
    (p' : Nat) (h1 : 1 ≤ p') (hlt : p' < table[i].pagesPerSpan) :
    p' * pageSize shift / table[i].size < max 1 (table[i].batchSize / 4) ∨
    (1 / 8 < (SizeClassInfo.mk table[i].size p' table[i].batchSize).fixedOverhead
                (pageSize shift) ∧
      (SizeClassInfo.mk table[i].size p' table[i].batchSize).fixedOverhead (pageSize shift)
        = (((p' * pageSize shift) % table[i].size + 48 : Nat) : ℚ)
          / ((p' * pageSize shift - (p' * pageSize shift) % table[i].size : Nat) : ℚ)) := by
  have hall : ∀ e ∈ table, 0 < e.size → ∀ p ∈ List.range e.pagesPerSpan, 1 ≤ p →
      (p * pageSize shift / e.size < max 1 (e.batchSize / 4) ∨
        (0 < p * pageSize shift - (p * pageSize shift) % e.size ∧
          p * pageSize shift - (p * pageSize shift) % e.size
            < 8 * ((p * pageSize shift) % e.size + 48))) :=
    forall_variants (P := fun _ s _ t => ∀ e ∈ t, 0 < e.size →
      ∀ p ∈ List.range e.pagesPerSpan, 1 ≤ p →
        (p * pageSize s / e.size < max 1 (e.batchSize / 4) ∨
          (0 < p * pageSize s - (p * pageSize s) % e.size ∧
            p * pageSize s - (p * pageSize s) % e.size
              < 8 * ((p * pageSize s) % e.size + 48))))
      (by decide) hsel
  rcases hall _ (List.getElem_mem hN) hpos p' (List.mem_range.mpr hlt) h1 with h | ⟨hb, h⟩
  · exact Or.inl h
  · exact Or.inr ⟨eighth_lt_fixedOverhead_of_nat
      (SizeClassInfo.mk table[i].size p' table[i].batchSize) (pageSize shift) hb h, rfl⟩

/-- Witness for C21: the class `{3584, 4, 18}` of the 8 KiB aligned-new table; a span of 3
pages would hold 6 objects and waste more than one eighth. -/
theorem pagesPerSpan_smallest_adequate_witness :
    kSizeClasses true 13 false = .ok kSizeClasses_aligned_13 ∧
    0 < (kSizeClasses_aligned_13[53]).size ∧ 3 < (kSizeClasses_aligned_13[53]).pagesPerSpan ∧
    (3 * pageSize 13 / (kSizeClasses_aligned_13[53]).size
        < max 1 ((kSizeClasses_aligned_13[53]).batchSize / 4) ∨
    (1 / 8 < (SizeClassInfo.mk (kSizeClasses_aligned_13[53]).size 3
                (kSizeClasses_aligned_13[53]).batchSize).fixedOverhead (pageSize 13) ∧
      (SizeClassInfo.mk (kSizeClasses_aligned_13[53]).size 3
          (kSizeClasses_aligned_13[53]).batchSize).fixedOverhead (pageSize 13)
        = (((3 * pageSize 13) % (kSizeClasses_aligned_13[53]).size + 48 : Nat) : ℚ)
          / ((3 * pageSize 13
              - (3 * pageSize 13) % (kSizeClasses_aligned_13[53]).size : Nat) : ℚ))) :=
  ⟨rfl, by decide, by decide,
    pagesPerSpan_smallest_adequate true 13 false kSizeClasses_aligned_13 rfl 53 (by decide)
      (by decide) 3 (by decide) (by decide)⟩

/-- C22: in every table variant, the batch size of every class with `size > 0` is a function
of its size alone: `table[i].batchSize == min(32, max(2, floor(65536 / table[i].size)))`. -/
theorem batchSize_eq_of_size (alignedNew : Bool) (shift : Nat) (fourM : Bool)
    (table : List SizeClassInfo) (hsel : kSizeClasses alignedNew shift fourM = .ok table)
    (i : Nat) (hN : i < table.length) (hpos : 0 < table[i].size) :
    table[i].batchSize = min 32 (max 2 (65536 / table[i].size)) := by
  have hall : ∀ e ∈ table, 0 < e.size → e.batchSize = min 32 (max 2 (65536 / e.size)) :=
    forall_variants
      (P := fun _ _ _ t => ∀ e ∈ t, 0 < e.size → e.batchSize = min 32 (max 2 (65536 / e.size)))
      (by decide) hsel
  exact hall _ (List.getElem_mem hN) hpos

/-- Witness for C22: the class `{4736, 3, 13}` of the 8 KiB aligned-new table. -/
theorem batchSize_eq_of_size_witness :
    kSizeClasses true 13 false = .ok kSizeClasses_aligned_13 ∧
    0 < (kSizeClasses_aligned_13[55]).size ∧
    (kSizeClasses_aligned_13[55]).batchSize
      = min 32 (max 2 (65536 / (kSizeClasses_aligned_13[55]).size)) :=
  ⟨rfl, by decide, batchSize_eq_of_size true 13 false kSizeClasses_aligned_13 rfl 55
    (by decide) (by decide)⟩

/-- C23: in every table variant, every class with `size > 0` has a span large enough for a
quarter of a batch: `floor(pagesPerSpan * pageSize / size) ≥ floor(batchSize / 4)`, with
`pageSize = 2^TCMALLOC_PAGE_SHIFT`. -/
theorem span_holds_quarter_batch (alignedNew : Bool) (shift : Nat) (fourM : Bool)
    (table : List SizeClassInfo) (hsel : kSizeClasses alignedNew shift fourM = .ok table)
    (i : Nat) (hN : i < table.length) (hpos : 0 < table[i].size) :
    table[i].pagesPerSpan * pageSize shift / table[i].size ≥ table[i].batchSize / 4 := by
  have hall : ∀ e ∈ table, 0 < e.size →
      e.batchSize / 4 ≤ e.pagesPerSpan * pageSize shift / e.size :=
    forall_variants
      (P := fun _ s _ t => ∀ e ∈ t, 0 < e.size →
        e.batchSize / 4 ≤ e.pagesPerSpan * pageSize s / e.size)
      (by decide) hsel
  exact hall _ (List.getElem_mem hN) hpos

/-- Witness for C23: the class `{1024, 2, 32}` of the 4 KiB default-alignment table, whose
span holds exactly a quarter of a batch. -/
theorem span_holds_quarter_batch_witness :
    kSizeClasses false 12 false = .ok kSizeClasses_default_12 ∧
    0 < (kSizeClasses_default_12[31]).size ∧
    (kSizeClasses_default_12[31]).pagesPerSpan * pageSize 12
        / (kSizeClasses_default_12[31]).size
      ≥ (kSizeClasses_default_12[31]).batchSize / 4 :=
  ⟨rfl, by decide, span_holds_quarter_batch false 12 false kSizeClasses_default_12 rfl 31
    (by decide) (by decide)⟩

/-! ### Alignment tiers and table lengths -/

/-- C24: in every table variant, class sizes in the larger tier use a coarser alignment:
every class with `size > 1024` has `size mod 128 == 0`. -/
theorem size_aligned_128_above_1024 (alignedNew : Bool) (shift : Nat) (fourM : Bool)
    (table : List SizeClassInfo) (hsel : kSizeClasses alignedNew shift fourM = .ok table)
    (i : Nat) (hN : i < table.length) (hbig : 1024 < table[i].size) :
    table[i].size % 128 = 0 := by
  have hall : ∀ e ∈ table, 1024 < e.size → e.size % 128 = 0 :=
    forall_variants (P := fun _ _ _ t => ∀ e ∈ t, 1024 < e.size → e.size % 128 = 0)
      (by decide) hsel
  exact hall _ (List.getElem_mem hN) hbig

/-- Witness for C24: the class of size 9344 in the 32 KiB aligned-new table. -/
theorem size_aligned_128_above_1024_witness :
    kSizeClasses true 15 false = .ok kSizeClasses_aligned_15 ∧
    1024 < (kSizeClasses_aligned_15[55]).size ∧
    (kSizeClasses_aligned_15[55]).size % 128 = 0 :=
  ⟨rfl, by decide, size_aligned_128_above_1024 true 15 false kSizeClasses_aligned_15 rfl 55
    (by decide) (by decide)⟩

/-- C25: in the default-alignment branch (the `#else` of
`__cpp_aligned_new && __STDCPP_DEFAULT_NEW_ALIGNMENT__ <= 8`), for every page shift and
either 4M setting, every class size other than 8 is a multiple of 16. -/
theorem default_branch_size_aligned_16 (shift : Nat) (fourM : Bool)
    (table : List SizeClassInfo) (hsel : kSizeClasses false shift fourM = .ok table)
    (i : Nat) (hN : i < table.length) (hne : table[i].size ≠ 8) :
    table[i].size % 16 = 0 := by
  have hall : ∀ e ∈ table, e.size ≠ 8 → e.size % 16 = 0 :=
    forall_variants
      (P := fun a _ _ t => a = false → ∀ e ∈ t, e.size ≠ 8 → e.size % 16 = 0)
      (by decide) hsel rfl
  exact hall _ (List.getElem_mem hN) hne

/-- Witness for C25: the class of size 48 in the 4 KiB default-alignment table. -/
theorem default_branch_size_aligned_16_witness :
    kSizeClasses false 12 false = .ok kSizeClasses_default_12 ∧
    (kSizeClasses_default_12[4]).size ≠ 8 ∧
    (kSizeClasses_default_12[4]).size % 16 = 0 :=
  ⟨rfl, by decide, default_branch_size_aligned_16 12 false kSizeClasses_default_12 rfl 4
    (by decide) (by decide)⟩

/-- C26: the number of table entries, the sentinel included, depends only on the page shift,
not on the alignment branch nor on `TCMALLOC_4M_MAX_SIZE`: it is 46 for page shift 12, 86 for
page shift 13, 78 for page shift 15, and 89 for page shift 18 both with and without
`TCMALLOC_4M_MAX_SIZE`. -/
theorem table_length_by_shift (alignedNew alignedNew' : Bool) (shift : Nat)
    (fourM fourM' : Bool) (table table' : List SizeClassInfo)
    (hsel : kSizeClasses alignedNew shift fourM = .ok table)
    (hsel' : kSizeClasses alignedNew' shift fourM' = .ok table') :
    table.length = table'.length ∧
    (shift = 12 → table.length = 46) ∧ (shift = 13 → table.length = 86) ∧
    (shift = 15 → table.length = 78) ∧ (shift = 18 → table.length = 89) := by
  have hlen : ∀ {a : Bool} {f : Bool} {t : List SizeClassInfo},
      kSizeClasses a shift f = .ok t →
      t.length = (if shift = 12 then 46 else if shift = 13 then 86
        else if shift = 15 then 78 else 89) := fun h =>
    forall_variants
      (P := fun _ s _ t => t.length = (if s = 12 then 46 else if s = 13 then 86
        else if s = 15 then 78 else 89))
      (by decide) h
  have h1 := hlen hsel
  have h2 := hlen hsel'
  refine ⟨by rw [h1, h2], ?_, ?_, ?_, ?_⟩ <;> intro hs <;> subst hs <;> simpa using h1

/-- Witness for C26: the two alignment branches at page shift 18, one with and one without
`TCMALLOC_4M_MAX_SIZE`. -/
theorem table_length_by_shift_witness :
    kSizeClasses true 18 false = .ok (kSizeClasses_aligned_18 false) ∧
    kSizeClasses false 18 true = .ok (kSizeClasses_default_18 true) ∧
    ((kSizeClasses_aligned_18 false).length = (kSizeClasses_default_18 true).length ∧
    ((18 : Nat) = 12 → (kSizeClasses_aligned_18 false).length = 46) ∧
    ((18 : Nat) = 13 → (kSizeClasses_aligned_18 false).length = 86) ∧
    ((18 : Nat) = 15 → (kSizeClasses_aligned_18 false).length = 78) ∧
    ((18 : Nat) = 18 → (kSizeClasses_aligned_18 false).length = 89)) :=
  ⟨rfl, rfl, table_length_by_shift true false 18 false true (kSizeClasses_aligned_18 false)
    (kSizeClasses_default_18 true) rfl rfl⟩

/-! ### The `<fixed>` annotations -/

theorem kSizeClassesFixed_ok_shift {a : Bool} {s : Nat} {f : Bool}
    {rows : List (SizeClassInfo × Option Nat)}
    (h : kSizeClassesFixed a s f = .ok rows) : s = 13 ∨ s = 15 ∨ s = 18 ∨ s = 12 := by
  unfold kSizeClassesFixed at h
  by_cases h13 : s = 13
  · exact Or.inl h13
  by_cases h15 : s = 15
  · exact Or.inr (Or.inl h15)
  by_cases h18 : s = 18
  · exact Or.inr (Or.inr (Or.inl h18))
  by_cases h12 : s = 12
  · exact Or.inr (Or.inr (Or.inr h12))
  simp [h13, h15, h18, h12] at h

/-- A decidable property that holds of the annotated rows of every configuration of
`variants` holds of every list of annotated rows the preprocessor can select. -/
theorem forall_variants_fixed
    {P : Bool → Nat → Bool → List (SizeClassInfo × Option Nat) → Prop}
    [∀ a s f r, Decidable (P a s f r)]
    (hc : (variants.all fun v => decide (P v.1 v.2.1 v.2.2 (rowsOf v.1 v.2.1 v.2.2))) = true)
    {a : Bool} {s : Nat} {f : Bool} {rows : List (SizeClassInfo × Option Nat)}
    (h : kSizeClassesFixed a s f = .ok rows) : P a s f rows := by
  have hmem : (a, s, f) ∈ variants := by
    rcases kSizeClassesFixed_ok_shift h with rfl | rfl | rfl | rfl <;>
      cases a <;> cases f <;> decide
  have hrows : rowsOf a s f = rows := by simp [rowsOf, h]
  have hv := List.all_eq_true.mp hc _ hmem
  simpa [hrows] using hv

/-- An annotation of `c` hundredths of a percent is the overhead rounded to two decimals as
soon as `|10000 * wasted - c * allocated| ≤ allocated / 2`, in natural numbers. -/
theorem fixedOverhead_rounds_of_nat (e : SizeClassInfo) (ps c : Nat)
    (hpos : 0 < e.pagesPerSpan * ps - e.leftover ps)
    (hlo : 2 * c * (e.pagesPerSpan * ps - e.leftover ps)
      ≤ 20000 * (e.leftover ps + 48) + (e.pagesPerSpan * ps - e.leftover ps))
    (hhi : 20000 * (e.leftover ps + 48)
      ≤ (2 * c + 1) * (e.pagesPerSpan * ps - e.leftover ps)) :
    |100 * e.fixedOverhead ps - (c : ℚ) / 100| ≤ 5 / 1000 := by
  have hb : (0 : ℚ) < ((e.pagesPerSpan * ps - e.leftover ps : Nat) : ℚ) := by
    exact_mod_cast hpos
  have hloq : 2 * (c : ℚ) * ((e.pagesPerSpan * ps - e.leftover ps : Nat) : ℚ)
      ≤ 20000 * ((e.leftover ps + 48 : Nat) : ℚ)
        + ((e.pagesPerSpan * ps - e.leftover ps : Nat) : ℚ) := by
    exact_mod_cast hlo
  have hhiq : 20000 * ((e.leftover ps + 48 : Nat) : ℚ)
      ≤ (2 * (c : ℚ) + 1) * ((e.pagesPerSpan * ps - e.leftover ps : Nat) : ℚ) := by
    exact_mod_cast hhi
  have hx : e.fixedOverhead ps * ((e.pagesPerSpan * ps - e.leftover ps : Nat) : ℚ)
      = ((e.leftover ps + 48 : Nat) : ℚ) := by
    unfold SizeClassInfo.fixedOverhead
    exact div_mul_cancel₀ _ (ne_of_gt hb)
  rw [← hx] at hloq hhiq
  have h1 : 2 * (c : ℚ) ≤ 20000 * e.fixedOverhead ps + 1 := by
    refine le_of_mul_le_mul_right ?_ hb
    linarith
  have h2 : 20000 * e.fixedOverhead ps ≤ 2 * (c : ℚ) + 1 := by
    refine le_of_mul_le_mul_right ?_ hb
    linarith
  rw [abs_le]
  constructor <;> linarith

/-- C27: the `<fixed>` percentage annotated on each table row documents the row's real
overhead: for every row with `size > 0` that carries a percentage `c`, with
`span = pagesPerSpan * 2^TCMALLOC_PAGE_SHIFT` and `leftover = span mod size`, the exact
rational `100 * (leftover + 48) / (span - leftover)` rounds to `c` at two decimals, that is,
its distance to `c` is at most 0.005. The annotation is held in hundredths of a percent, so
the percentage is `c / 100`. -/
theorem fixed_annotation_rounds (alignedNew : Bool) (shift : Nat) (fourM : Bool)
    (rows : List (SizeClassInfo × Option Nat))
    (hsel : kSizeClassesFixed alignedNew shift fourM = .ok rows)
    (i : Nat) (hN : i < rows.length) (c : Nat) (hc : rows[i].2 = some c)
    (hpos : 0 < rows[i].1.size) :
    kSizeClasses alignedNew shift fourM = .ok (rows.map Prod.fst) ∧
    |100 * rows[i].1.fixedOverhead (pageSize shift) - (c : ℚ) / 100| ≤ 5 / 1000 ∧
    rows[i].1.fixedOverhead (pageSize shift)
      = (((rows[i].1.pagesPerSpan * 2 ^ shift) % rows[i].1.size + 48 : Nat) : ℚ)
        / ((rows[i].1.pagesPerSpan * 2 ^ shift
            - (rows[i].1.pagesPerSpan * 2 ^ shift) % rows[i].1.size : Nat) : ℚ) := by
  have hP := forall_variants_fixed
    (P := fun a s f r =>
      (kSizeClasses a s f).toOption = some (r.map Prod.fst) ∧
      ∀ x ∈ r, 0 < x.1.size → ∀ c ∈ x.2,
        (0 < x.1.pagesPerSpan * pageSize s - x.1.leftover (pageSize s) ∧
          2 * c * (x.1.pagesPerSpan * pageSize s - x.1.leftover (pageSize s))
            ≤ 20000 * (x.1.leftover (pageSize s) + 48)
              + (x.1.pagesPerSpan * pageSize s - x.1.leftover (pageSize s)) ∧
          20000 * (x.1.leftover (pageSize s) + 48)
            ≤ (2 * c + 1) * (x.1.pagesPerSpan * pageSize s - x.1.leftover (pageSize s))))
    (by decide) hsel
  obtain ⟨htab, hall⟩ := hP
  refine ⟨?_, ?_, rfl⟩
  · cases hk : kSizeClasses alignedNew shift fourM with
    | error e => simp [hk, Except.toOption] at htab
    | ok t =>
      simp only [hk, Except.toOption, Option.some.injEq] at htab
      rw [htab]
  · obtain ⟨h0, hlo, hhi⟩ := hall _ (List.getElem_mem hN) hpos c hc
    exact fixedOverhead_rounds_of_nat _ _ _ h0 hlo hhi

/-- Witness for C27: the row `{96, 1, 32}` of the 8 KiB aligned-new table, annotated
0.98%. -/
theorem fixed_annotation_rounds_witness :
    kSizeClassesFixed true 13 false = .ok kSizeClasses_aligned_13_fixed ∧
    (kSizeClasses_aligned_13_fixed[12]).2 = some 98 ∧
    0 < (kSizeClasses_aligned_13_fixed[12]).1.size ∧
    (kSizeClasses true 13 false = .ok (kSizeClasses_aligned_13_fixed.map Prod.fst) ∧
    |100 * (kSizeClasses_aligned_13_fixed[12]).1.fixedOverhead (pageSize 13)
        - ((98 : Nat) : ℚ) / 100| ≤ 5 / 1000 ∧
    (kSizeClasses_aligned_13_fixed[12]).1.fixedOverhead (pageSize 13)
      = ((((kSizeClasses_aligned_13_fixed[12]).1.pagesPerSpan * 2 ^ 13)
            % (kSizeClasses_aligned_13_fixed[12]).1.size + 48 : Nat) : ℚ)
        / (((kSizeClasses_aligned_13_fixed[12]).1.pagesPerSpan * 2 ^ 13
            - ((kSizeClasses_aligned_13_fixed[12]).1.pagesPerSpan * 2 ^ 13)
                % (kSizeClasses_aligned_13_fixed[12]).1.size : Nat) : ℚ)) :=
  ⟨rfl, by decide, by decide,
    fixed_annotation_rounds true 13 false kSizeClasses_aligned_13_fixed rfl 12 (by decide)
      98 (by decide) (by decide)⟩

end tcmalloc
